import Mathlib

/-!
Shallow embedding of the egui-winit adapter layer
(`crates/egui-winit/src/lib.rs`): the winit-to-egui input-translation
state machine (`State::on_event` and its helpers) and the viewport
reconciler (`changes_between_builders`).

Modelling conventions:
* Rust `f32`/`f64` scalars are modelled as `ℚ`; the transcendental
  `f32::exp` used for zoom factors and the external `epaint::util::hash`
  are abstract function fields of the environment `Env`.
* `char` values are modelled by their Unicode codepoint (`Nat`).
* `Arc` identity (used by `Arc::ptr_eq` in the icon comparison of
  `changes_between_builders`) is modelled by a `ptrId : Nat` field:
  two model icons with the same `ptrId` stand for the same allocation.
* `cfg!(target_os = …)` conditions and the `egui::Context` queries
  (`wants_pointer_input` etc.) are boolean fields of `Env`.
* State mutation is modelled by explicit state passing; the events the
  Rust code pushes onto `self.egui_input.events` are accumulated in
  `EState.events`, and the native window calls made by
  `set_cursor_icon` are returned as a list of `NativeCall`s.
-/

namespace EguiWinit

/-! ## Viewport reconciler data model -/

/-- Model of `Arc<(u32, u32, Vec<u8>)>`: an icon image (width, height,
rgba bytes) together with the identity of its allocation (`ptrId`),
which is what `Arc::ptr_eq` compares. -/
structure IconData where
  width : Nat
  height : Nat
  rgba : List Nat
  ptrId : Nat
deriving DecidableEq, Repr

/-- The `egui::ViewportCommand` constructors that `changes_between_builders`
and the claims refer to. `Title` and `EnableButtons` exist in the enum but
are never produced by the reconciler. -/
inductive ViewportCommand where
  | Title (s : String)
  | OuterPosition (x y : Int)
  | InnerSize (w h : Nat)
  | MinInnerSize (s : Option (Nat × Nat))
  | MaxInnerSize (s : Option (Nat × Nat))
  | Fullscreen (b : Bool)
  | Minimized (b : Bool)
  | Maximized (b : Bool)
  | Resizable (b : Bool)
  | Transparent (b : Bool)
  | Decorations (b : Bool)
  | WindowIcon (i : Option (List Nat × Nat × Nat))
  | Visible (b : Bool)
  | CursorHitTest (b : Bool)
  | EnableButtons (close minimized maximize : Bool)
deriving DecidableEq, Repr

/-- Is this command the `EnableButtons` command (the only runtime command
corresponding to the window-button fields)? -/
def ViewportCommand.isEnableButtons : ViewportCommand → Bool
  | .EnableButtons _ _ _ => true
  | _ => false

/-- Is this command a `Title` command? -/
def ViewportCommand.isTitle : ViewportCommand → Bool
  | .Title _ => true
  | _ => false

/-- The fields of `egui::ViewportBuilder` read or written by
`changes_between_builders` (plus `title`, which it deliberately ignores).
`none` means "unspecified, leave as-is". -/
structure ViewportBuilder where
  title : String := ""
  position : Option (Option (Int × Int)) := none
  inner_size : Option (Option (Nat × Nat)) := none
  min_inner_size : Option (Option (Nat × Nat)) := none
  max_inner_size : Option (Option (Nat × Nat)) := none
  fullscreen : Option Bool := none
  minimized : Option Bool := none
  maximized : Option Bool := none
  resizable : Option Bool := none
  transparent : Option Bool := none
  decorations : Option Bool := none
  icon : Option (Option IconData) := none
  visible : Option Bool := none
  hittest : Option Bool := none
  active : Option Bool := none
  close_button : Option Bool := none
  minimize_button : Option Bool := none
  maximize_button : Option Bool := none
  title_hidden : Option Bool := none
  titlebar_transparent : Option Bool := none
  fullsize_content_view : Option Bool := none
deriving DecidableEq, Repr

/-! ## The reconciler: `changes_between_builders`

Each `step_*` definition below is one `if let Some(x) = new.x { … }`
block of the Rust function, in source order.  The accumulator is the
pair of the command list built so far and the (mutated) `last` builder;
the second phase threads the `recreate_window` flag instead of the
command list. -/

/-- `position` block of `changes_between_builders`. -/
def step_position (nw : ViewportBuilder) (acc : List ViewportCommand × ViewportBuilder) :
    List ViewportCommand × ViewportBuilder :=
  match nw.position with
  | some position =>
    if some position ≠ acc.2.position then
      let last := { acc.2 with position := some position }
      match position with
      | some p => (acc.1 ++ [ViewportCommand.OuterPosition p.1 p.2], last)
      | none => (acc.1, last)
    else acc
  | none => acc

/-- `inner_size` block of `changes_between_builders`. -/
def step_inner_size (nw : ViewportBuilder) (acc : List ViewportCommand × ViewportBuilder) :
    List ViewportCommand × ViewportBuilder :=
  match nw.inner_size with
  | some inner_size =>
    if some inner_size ≠ acc.2.inner_size then
      let last := { acc.2 with inner_size := some inner_size }
      match inner_size with
      | some p => (acc.1 ++ [ViewportCommand.InnerSize p.1 p.2], last)
      | none => (acc.1, last)
    else acc
  | none => acc

/-- `min_inner_size` block of `changes_between_builders`. -/
def step_min_inner_size (nw : ViewportBuilder) (acc : List ViewportCommand × ViewportBuilder) :
    List ViewportCommand × ViewportBuilder :=
  match nw.min_inner_size with
  | some min_inner_size =>
    if some min_inner_size ≠ acc.2.min_inner_size then
      (acc.1 ++ [ViewportCommand.MinInnerSize min_inner_size],
        { acc.2 with min_inner_size := some min_inner_size })
    else acc
  | none => acc

/-- `max_inner_size` block of `changes_between_builders`. -/
def step_max_inner_size (nw : ViewportBuilder) (acc : List ViewportCommand × ViewportBuilder) :
    List ViewportCommand × ViewportBuilder :=
  match nw.max_inner_size with
  | some max_inner_size =>
    if some max_inner_size ≠ acc.2.max_inner_size then
      (acc.1 ++ [ViewportCommand.MaxInnerSize max_inner_size],
        { acc.2 with max_inner_size := some max_inner_size })
    else acc
  | none => acc

/-- `fullscreen` block of `changes_between_builders`. -/
def step_fullscreen (nw : ViewportBuilder) (acc : List ViewportCommand × ViewportBuilder) :
    List ViewportCommand × ViewportBuilder :=
  match nw.fullscreen with
  | some fullscreen =>
    if some fullscreen ≠ acc.2.fullscreen then
      (acc.1 ++ [ViewportCommand.Fullscreen fullscreen],
        { acc.2 with fullscreen := some fullscreen })
    else acc
  | none => acc

/-- `minimized` block of `changes_between_builders`. -/
def step_minimized (nw : ViewportBuilder) (acc : List ViewportCommand × ViewportBuilder) :
    List ViewportCommand × ViewportBuilder :=
  match nw.minimized with
  | some minimized =>
    if some minimized ≠ acc.2.minimized then
      (acc.1 ++ [ViewportCommand.Minimized minimized],
        { acc.2 with minimized := some minimized })
    else acc
  | none => acc

/-- `maximized` block of `changes_between_builders`. -/
def step_maximized (nw : ViewportBuilder) (acc : List ViewportCommand × ViewportBuilder) :
    List ViewportCommand × ViewportBuilder :=
  match nw.maximized with
  | some maximized =>
    if some maximized ≠ acc.2.maximized then
      (acc.1 ++ [ViewportCommand.Maximized maximized],
        { acc.2 with maximized := some maximized })
    else acc
  | none => acc

/-- `resizable` block of `changes_between_builders`. -/
def step_resizable (nw : ViewportBuilder) (acc : List ViewportCommand × ViewportBuilder) :
    List ViewportCommand × ViewportBuilder :=
  match nw.resizable with
  | some resizable =>
    if some resizable ≠ acc.2.resizable then
      (acc.1 ++ [ViewportCommand.Resizable resizable],
        { acc.2 with resizable := some resizable })
    else acc
  | none => acc

/-- `transparent` block of `changes_between_builders`. -/
def step_transparent (nw : ViewportBuilder) (acc : List ViewportCommand × ViewportBuilder) :
    List ViewportCommand × ViewportBuilder :=
  match nw.transparent with
  | some transparent =>
    if some transparent ≠ acc.2.transparent then
      (acc.1 ++ [ViewportCommand.Transparent transparent],
        { acc.2 with transparent := some transparent })
    else acc
  | none => acc

/-- `decorations` block of `changes_between_builders`. -/
def step_decorations (nw : ViewportBuilder) (acc : List ViewportCommand × ViewportBuilder) :
    List ViewportCommand × ViewportBuilder :=
  match nw.decorations with
  | some decorations =>
    if some decorations ≠ acc.2.decorations then
      (acc.1 ++ [ViewportCommand.Decorations decorations],
        { acc.2 with decorations := some decorations })
    else acc
  | none => acc

/-- `icon` block of `changes_between_builders`: compares icons by
`Arc::ptr_eq` (here `ptrId` equality), with absence checks otherwise. -/
def step_icon (nw : ViewportBuilder) (acc : List ViewportCommand × ViewportBuilder) :
    List ViewportCommand × ViewportBuilder :=
  match nw.icon with
  | some icon =>
    let eq :=
      match icon with
      | some ic =>
        match acc.2.icon with
        | some (some last_ic) => ic.ptrId == last_ic.ptrId
        | _ => false
      | none => acc.2.icon == some none
    if !eq then
      (acc.1 ++ [ViewportCommand.WindowIcon (icon.map fun i => (i.rgba, i.width, i.height))],
        { acc.2 with icon := some icon })
    else acc
  | none => acc

/-- `visible` block of `changes_between_builders`.  The source compares
`Some(visible)` against `last.active` (sic), not against `last.visible`;
the comparison is embedded exactly as written. -/
def step_visible (nw : ViewportBuilder) (acc : List ViewportCommand × ViewportBuilder) :
    List ViewportCommand × ViewportBuilder :=
  match nw.visible with
  | some visible =>
    if some visible ≠ acc.2.active then
      (acc.1 ++ [ViewportCommand.Visible visible],
        { acc.2 with visible := some visible })
    else acc
  | none => acc

/-- `hittest` block of `changes_between_builders`. -/
def step_hittest (nw : ViewportBuilder) (acc : List ViewportCommand × ViewportBuilder) :
    List ViewportCommand × ViewportBuilder :=
  match nw.hittest with
  | some hittest =>
    if some hittest ≠ acc.2.hittest then
      (acc.1 ++ [ViewportCommand.CursorHitTest hittest],
        { acc.2 with hittest := some hittest })
    else acc
  | none => acc

/-- `active` block of the `recreate_window` phase. -/
def step_active (nw : ViewportBuilder) (acc : Bool × ViewportBuilder) :
    Bool × ViewportBuilder :=
  match nw.active with
  | some active =>
    if some active ≠ acc.2.active then (true, { acc.2 with active := some active })
    else acc
  | none => acc

/-- `close_button` block of the `recreate_window` phase. -/
def step_close_button (nw : ViewportBuilder) (acc : Bool × ViewportBuilder) :
    Bool × ViewportBuilder :=
  match nw.close_button with
  | some close_button =>
    if some close_button ≠ acc.2.close_button then
      (true, { acc.2 with close_button := some close_button })
    else acc
  | none => acc

/-- `minimize_button` block of the `recreate_window` phase. -/
def step_minimize_button (nw : ViewportBuilder) (acc : Bool × ViewportBuilder) :
    Bool × ViewportBuilder :=
  match nw.minimize_button with
  | some minimize_button =>
    if some minimize_button ≠ acc.2.minimize_button then
      (true, { acc.2 with minimize_button := some minimize_button })
    else acc
  | none => acc

/-- `maximize_button` block of the `recreate_window` phase. -/
def step_maximize_button (nw : ViewportBuilder) (acc : Bool × ViewportBuilder) :
    Bool × ViewportBuilder :=
  match nw.maximize_button with
  | some maximized_button =>
    if some maximized_button ≠ acc.2.maximize_button then
      (true, { acc.2 with maximize_button := some maximized_button })
    else acc
  | none => acc

/-- `title_hidden` block of the `recreate_window` phase. -/
def step_title_hidden (nw : ViewportBuilder) (acc : Bool × ViewportBuilder) :
    Bool × ViewportBuilder :=
  match nw.title_hidden with
  | some title_hidden =>
    if some title_hidden ≠ acc.2.title_hidden then
      (true, { acc.2 with title_hidden := some title_hidden })
    else acc
  | none => acc

/-- `titlebar_transparent` block of the `recreate_window` phase. -/
def step_titlebar_transparent (nw : ViewportBuilder) (acc : Bool × ViewportBuilder) :
    Bool × ViewportBuilder :=
  match nw.titlebar_transparent with
  | some titlebar_transparent =>
    if some titlebar_transparent ≠ acc.2.titlebar_transparent then
      (true, { acc.2 with titlebar_transparent := some titlebar_transparent })
    else acc
  | none => acc

/-- `fullsize_content_view` block of the `recreate_window` phase. -/
def step_fullsize_content_view (nw : ViewportBuilder) (acc : Bool × ViewportBuilder) :
    Bool × ViewportBuilder :=
  match nw.fullsize_content_view with
  | some value =>
    if some value ≠ acc.2.fullsize_content_view then
      (true, { acc.2 with fullsize_content_view := some value })
    else acc
  | none => acc

/-- The command-emitting first half of `changes_between_builders`
(everything up to the `recreate_window` section), in source order. -/
def commandsPhase (nw : ViewportBuilder) (last : ViewportBuilder) :
    List ViewportCommand × ViewportBuilder :=
  let acc := step_position nw ([], last)
  let acc := step_inner_size nw acc
  let acc := step_min_inner_size nw acc
  let acc := step_max_inner_size nw acc
  let acc := step_fullscreen nw acc
  let acc := step_minimized nw acc
  let acc := step_maximized nw acc
  let acc := step_resizable nw acc
  let acc := step_transparent nw acc
  let acc := step_decorations nw acc
  let acc := step_icon nw acc
  let acc := step_visible nw acc
  step_hittest nw acc

/-- The `recreate_window` second half of `changes_between_builders`,
in source order. -/
def recreatePhase (nw : ViewportBuilder) (last : ViewportBuilder) :
    Bool × ViewportBuilder :=
  let r := step_active nw (false, last)
  let r := step_close_button nw r
  let r := step_minimize_button nw r
  let r := step_maximize_button nw r
  let r := step_title_hidden nw r
  let r := step_titlebar_transparent nw r
  step_fullsize_content_view nw r

/-- `changes_between_builders(new, last)`: returns the command list, the
`recreate_window` flag and the mutated `last` builder.  The title is
deliberately never compared (source comment: a live window's title can
only be changed with `ViewportCommand::Title`). -/
def changes_between_builders (nw last : ViewportBuilder) :
    List ViewportCommand × Bool × ViewportBuilder :=
  let acc := commandsPhase nw last
  let r := recreatePhase nw acc.2
  (acc.1, r.1, r.2)

/-- The previous descriptor of the spec's reconciler-correctness scenario:
only `size = (800, 600)` is set. -/
def vb_prev : ViewportBuilder := { inner_size := some (some (800, 600)) }

/-- The desired descriptor of the spec's reconciler-correctness scenario:
`size = (1024, 768)` and `title = "X"`. -/
def vb_desired : ViewportBuilder := { title := "X", inner_size := some (some (1024, 768)) }

/-! ## Input-translation data model -/

/-- `egui::PointerButton`. -/
inductive PointerButton where
  | Primary | Secondary | Middle | Extra1 | Extra2
deriving DecidableEq, Repr

/-- `winit::event::MouseButton`; `Other n` carries the extra-button index. -/
inductive MouseButton where
  | Left | Right | Middle
  | Other (n : Nat)
deriving DecidableEq, Repr

/-- `winit::event::ElementState`. -/
inductive ElementState where
  | Pressed | Released
deriving DecidableEq, Repr

/-- `winit::event::TouchPhase`. -/
inductive WinitTouchPhase where
  | Started | Moved | Ended | Cancelled
deriving DecidableEq, Repr

/-- `egui::TouchPhase`. -/
inductive TouchPhase where
  | Start | Move | End | Cancel
deriving DecidableEq, Repr

/-- `egui::MouseWheelUnit` (only the `Line` and `Point` cases are produced). -/
inductive MouseWheelUnit where
  | Line | Point
deriving DecidableEq, Repr

/-- `egui::Modifiers`. -/
structure Modifiers where
  alt : Bool := false
  ctrl : Bool := false
  shift : Bool := false
  mac_cmd : Bool := false
  command : Bool := false
deriving DecidableEq, Repr

/-- `winit::event::ModifiersState` (the four bits read by the translator). -/
structure ModifiersState where
  alt : Bool := false
  ctrl : Bool := false
  shift : Bool := false
  logo : Bool := false
deriving DecidableEq, Repr

/-- `egui::CursorIcon` (the full enum matched by `translate_cursor`). -/
inductive CursorIcon where
  | None
  | Alias | AllScroll | Cell | ContextMenu | Copy | Crosshair | Default
  | Grab | Grabbing | Help | Move | NoDrop | NotAllowed | PointingHand | Progress
  | ResizeHorizontal | ResizeNeSw | ResizeNwSe | ResizeVertical
  | ResizeEast | ResizeSouthEast | ResizeSouth | ResizeSouthWest | ResizeWest
  | ResizeNorthWest | ResizeNorth | ResizeNorthEast | ResizeColumn | ResizeRow
  | Text | VerticalText | Wait | ZoomIn | ZoomOut
deriving DecidableEq, Repr

/-- `winit::window::CursorIcon` (the targets of `translate_cursor`). -/
inductive WinitCursorIcon where
  | Alias | AllScroll | Cell | ContextMenu | Copy | Crosshair | Default
  | Grab | Grabbing | Help | Move | NoDrop | NotAllowed | Hand | Progress
  | EwResize | NeswResize | NwseResize | NsResize
  | EResize | SeResize | SResize | SwResize | WResize
  | NwResize | NResize | NeResize | ColResize | RowResize
  | Text | VerticalText | Wait | ZoomIn | ZoomOut
deriving DecidableEq, Repr

/-- `egui::Key` (the targets of `translate_virtual_key_code`). -/
inductive Key where
  | ArrowDown | ArrowLeft | ArrowRight | ArrowUp
  | Escape | Tab | Backspace | Enter | Space
  | Insert | Delete | Home | End | PageUp | PageDown
  | Minus | PlusEquals
  | Num0 | Num1 | Num2 | Num3 | Num4 | Num5 | Num6 | Num7 | Num8 | Num9
  | A | B | C | D | E | F | G | H | I | J | K | L | M
  | N | O | P | Q | R | S | T | U | V | W | X | Y | Z
  | F1 | F2 | F3 | F4 | F5 | F6 | F7 | F8 | F9 | F10
  | F11 | F12 | F13 | F14 | F15 | F16 | F17 | F18 | F19 | F20
deriving DecidableEq, Repr

/-- `winit::event::VirtualKeyCode`: the codes named in the source, with
`Other n` standing for all remaining (unmapped) codes of the winit enum. -/
inductive VirtualKeyCode where
  | Down | Left | Right | Up
  | Escape | Tab | Back | Return | Space
  | Insert | Delete | Home | End | PageUp | PageDown
  | Minus | Equals
  | Key0 | Key1 | Key2 | Key3 | Key4 | Key5 | Key6 | Key7 | Key8 | Key9
  | Numpad0 | Numpad1 | Numpad2 | Numpad3 | Numpad4
  | Numpad5 | Numpad6 | Numpad7 | Numpad8 | Numpad9
  | A | B | C | D | E | F | G | H | I | J | K | L | M
  | N | O | P | Q | R | S | T | U | V | W | X | Y | Z
  | F1 | F2 | F3 | F4 | F5 | F6 | F7 | F8 | F9 | F10
  | F11 | F12 | F13 | F14 | F15 | F16 | F17 | F18 | F19 | F20
  | Other (n : Nat)
deriving Repr

/-- Injective numeric encoding of `VirtualKeyCode`, used to decide the
equality tests (`==`) the source performs on key codes. -/
def VirtualKeyCode.code : VirtualKeyCode → Nat
  | .Down => 0 | .Left => 1 | .Right => 2 | .Up => 3
  | .Escape => 4 | .Tab => 5 | .Back => 6 | .Return => 7 | .Space => 8
  | .Insert => 9 | .Delete => 10 | .Home => 11 | .End => 12
  | .PageUp => 13 | .PageDown => 14
  | .Minus => 15 | .Equals => 16
  | .Key0 => 17 | .Key1 => 18 | .Key2 => 19 | .Key3 => 20 | .Key4 => 21
  | .Key5 => 22 | .Key6 => 23 | .Key7 => 24 | .Key8 => 25 | .Key9 => 26
  | .Numpad0 => 27 | .Numpad1 => 28 | .Numpad2 => 29 | .Numpad3 => 30
  | .Numpad4 => 31 | .Numpad5 => 32 | .Numpad6 => 33 | .Numpad7 => 34
  | .Numpad8 => 35 | .Numpad9 => 36
  | .A => 37 | .B => 38 | .C => 39 | .D => 40 | .E => 41 | .F => 42
  | .G => 43 | .H => 44 | .I => 45 | .J => 46 | .K => 47 | .L => 48
  | .M => 49 | .N => 50 | .O => 51 | .P => 52 | .Q => 53 | .R => 54
  | .S => 55 | .T => 56 | .U => 57 | .V => 58 | .W => 59 | .X => 60
  | .Y => 61 | .Z => 62
  | .F1 => 63 | .F2 => 64 | .F3 => 65 | .F4 => 66 | .F5 => 67
  | .F6 => 68 | .F7 => 69 | .F8 => 70 | .F9 => 71 | .F10 => 72
  | .F11 => 73 | .F12 => 74 | .F13 => 75 | .F14 => 76 | .F15 => 77
  | .F16 => 78 | .F17 => 79 | .F18 => 80 | .F19 => 81 | .F20 => 82
  | .Other n => 100 + n

instance : BEq VirtualKeyCode := ⟨fun a b => a.code == b.code⟩

/-- `winit::event::Force`. -/
inductive Force where
  | Normalized (f : ℚ)
  | Calibrated (force max_possible_force : ℚ)
deriving DecidableEq, Repr

/-- `winit::event::Touch` (the fields read by `on_touch`). -/
structure Touch where
  device_id : Nat
  id : Nat
  phase : WinitTouchPhase
  location : ℚ × ℚ
  force : Option Force
deriving DecidableEq, Repr

/-- `winit::event::MouseScrollDelta`. -/
inductive MouseScrollDelta where
  | LineDelta (x y : ℚ)
  | PixelDelta (x y : ℚ)
deriving DecidableEq, Repr

/-- `winit::event::Ime` (the preedit cursor range is not read). -/
inductive Ime where
  | Enabled | Disabled
  | Commit (t : String)
  | Preedit (t : String)
deriving DecidableEq, Repr

/-- `winit::event::KeyboardInput` (the fields read by `on_keyboard_input`). -/
structure KeyboardInput where
  state : ElementState
  virtual_keycode : Option VirtualKeyCode
deriving Repr

/-- `egui::Event`: the constructors the translator can push.  `Text`
carries the codepoint of the single pushed character; `CloseRequested`
models `Event::WindowEvent(WindowEvent::CloseRequested)`. -/
inductive Event where
  | PointerMoved (pos : ℚ × ℚ)
  | PointerButton (pos : ℚ × ℚ) (button : EguiWinit.PointerButton)
      (pressed : Bool) (modifiers : Modifiers)
  | PointerGone
  | Scroll (delta : ℚ × ℚ)
  | Zoom (factor : ℚ)
  | MouseWheel (unit : MouseWheelUnit) (delta : ℚ × ℚ) (modifiers : Modifiers)
  | Key (key : EguiWinit.Key) (pressed : Bool) (rpt : Bool) (modifiers : Modifiers)
  | Text (c : Nat)
  | CompositionStart
  | CompositionUpdate (t : String)
  | CompositionEnd (t : String)
  | Touch (device_id : Nat) (id : Nat) (phase : TouchPhase)
      (pos : ℚ × ℚ) (force : Option ℚ)
  | WindowFocused (b : Bool)
  | CloseRequested
  | Cut
  | Copy
  | Paste (t : String)
deriving DecidableEq, Repr

/-- Is this a `Zoom` event? -/
def Event.isZoom : Event → Bool
  | .Zoom _ => true
  | _ => false

/-- Is this a `Scroll` event? -/
def Event.isScroll : Event → Bool
  | .Scroll _ => true
  | _ => false

/-- `winit::event::WindowEvent`: the constructors matched by
`State::on_event`, with payloads restricted to what the translator
reads.  `CursorEntered`, `Destroyed`, `Occluded`, `Resized`, `Moved`,
`ThemeChanged` and `TouchpadPressure` only trigger a repaint;
`AxisMotion`, `SmartMagnify` and `TouchpadRotate` are ignored. -/
inductive WindowEvent where
  | ScaleFactorChanged (scale_factor : ℚ)
  | MouseInput (state : ElementState) (button : MouseButton)
  | MouseWheel (delta : MouseScrollDelta)
  | CursorMoved (position : ℚ × ℚ)
  | CursorLeft
  | Touch (touch : EguiWinit.Touch)
  | ReceivedCharacter (ch : Nat)
  | Ime (ime : EguiWinit.Ime)
  | KeyboardInput (input : EguiWinit.KeyboardInput)
  | Focused (b : Bool)
  | HoveredFile (path : String)
  | HoveredFileCancelled
  | DroppedFile (path : String)
  | ModifiersChanged (st : ModifiersState)
  | CloseRequested
  | CursorEntered | Destroyed | Occluded (b : Bool)
  | Resized (w h : Nat) | Moved (x y : Int) | ThemeChanged | TouchpadPressure
  | AxisMotion | SmartMagnify | TouchpadRotate
  | TouchpadMagnify (delta : ℚ)
deriving Repr

/-- `egui_winit::EventResponse`. -/
structure EventResponse where
  consumed : Bool
  repaint : Bool
deriving DecidableEq, Repr

/-- The mutable state of `egui_winit::State` together with the parts of
`egui::RawInput` the translator writes (`events`, `modifiers`, `focused`,
`pixels_per_point`, hovered/dropped files). -/
structure EState where
  events : List Event := []
  hovered_files : List String := []
  dropped_files : List String := []
  modifiers : Modifiers := {}
  focused : Bool := false
  pixels_per_point : Option ℚ := none
  pointer_pos_in_points : Option (ℚ × ℚ) := none
  any_pointer_button_down : Bool := false
  current_cursor_icon : Option CursorIcon := none
  current_pixels_per_point : ℚ := 1
  simulate_touch_screen : Bool := false
  pointer_touch_id : Option Nat := none
  input_method_editor_started : Bool := false
deriving DecidableEq, Repr

/-- The state produced by `State::new` (clipboard and timers excluded). -/
def initState : EState := {}

/-- The ambient facts the translator consults: the compile-time platform
(`cfg!` tests), the `egui::Context` queries used only for the `consumed`
flag, the abstract `f32::exp` and `epaint::util::hash` functions, and the
clipboard contents read on a paste command. -/
structure Env where
  is_mac : Bool := false
  is_windows : Bool := false
  wants_pointer_input : Bool := false
  wants_keyboard_input : Bool := false
  is_using_pointer : Bool := false
  fexp : ℚ → ℚ := id
  hashFn : Nat → Nat := id
  clipboard : Option String := none

/-- A concrete environment for witnesses: non-mac, non-windows, all
context queries `false`, `exp` and `hash` modelled by `id`. -/
def env0 : Env := {}

/-- A native window call made by `set_cursor_icon`. -/
inductive NativeCall where
  | SetCursorVisible (b : Bool)
  | SetCursorIcon (c : WinitCursorIcon)
deriving DecidableEq, Repr

/-- Append one event to the input queue (`self.egui_input.events.push`). -/
def push (s : EState) (e : Event) : EState :=
  { s with events := s.events ++ [e] }

/-! ## Translation tables and helpers -/

/-- `translate_mouse_button`: `Other(1)`/`Other(2)` map to the extra
buttons, all remaining extra indices have no mapping. -/
def translate_mouse_button : MouseButton → Option PointerButton
  | .Left => some .Primary
  | .Right => some .Secondary
  | .Middle => some .Middle
  | .Other n => if n = 1 then some .Extra1 else if n = 2 then some .Extra2 else none

/-- `is_printable_char`: drops ASCII control characters and the three
private-use ranges (`chr` is the character's codepoint). -/
def is_printable_char (chr : Nat) : Bool :=
  let is_in_private_use_area :=
    decide ((0xe000 ≤ chr ∧ chr ≤ 0xf8ff)
      ∨ (0xf0000 ≤ chr ∧ chr ≤ 0xffffd)
      ∨ (0x100000 ≤ chr ∧ chr ≤ 0x10fffd))
  let is_ascii_control := decide (chr ≤ 0x1f ∨ chr = 0x7f)
  !is_in_private_use_area && !is_ascii_control

/-- `is_cut_command` (`cfg!(target_os = "windows")` is `env.is_windows`). -/
def is_cut_command (env : Env) (modifiers : Modifiers) (keycode : VirtualKeyCode) : Bool :=
  (modifiers.command && keycode == VirtualKeyCode.X)
    || (env.is_windows && modifiers.shift && keycode == VirtualKeyCode.Delete)

/-- `is_copy_command`. -/
def is_copy_command (env : Env) (modifiers : Modifiers) (keycode : VirtualKeyCode) : Bool :=
  (modifiers.command && keycode == VirtualKeyCode.C)
    || (env.is_windows && modifiers.ctrl && keycode == VirtualKeyCode.Insert)

/-- `is_paste_command`. -/
def is_paste_command (env : Env) (modifiers : Modifiers) (keycode : VirtualKeyCode) : Bool :=
  (modifiers.command && keycode == VirtualKeyCode.V)
    || (env.is_windows && modifiers.shift && keycode == VirtualKeyCode.Insert)

/-- `translate_virtual_key_code`. -/
def translate_virtual_key_code : VirtualKeyCode → Option Key
  | .Down => some .ArrowDown
  | .Left => some .ArrowLeft
  | .Right => some .ArrowRight
  | .Up => some .ArrowUp
  | .Escape => some .Escape
  | .Tab => some .Tab
  | .Back => some .Backspace
  | .Return => some .Enter
  | .Space => some .Space
  | .Insert => some .Insert
  | .Delete => some .Delete
  | .Home => some .Home
  | .End => some .End
  | .PageUp => some .PageUp
  | .PageDown => some .PageDown
  | .Minus => some .Minus
  | .Equals => some .PlusEquals
  | .Key0 => some .Num0 | .Numpad0 => some .Num0
  | .Key1 => some .Num1 | .Numpad1 => some .Num1
  | .Key2 => some .Num2 | .Numpad2 => some .Num2
  | .Key3 => some .Num3 | .Numpad3 => some .Num3
  | .Key4 => some .Num4 | .Numpad4 => some .Num4
  | .Key5 => some .Num5 | .Numpad5 => some .Num5
  | .Key6 => some .Num6 | .Numpad6 => some .Num6
  | .Key7 => some .Num7 | .Numpad7 => some .Num7
  | .Key8 => some .Num8 | .Numpad8 => some .Num8
  | .Key9 => some .Num9 | .Numpad9 => some .Num9
  | .A => some .A | .B => some .B | .C => some .C | .D => some .D
  | .E => some .E | .F => some .F | .G => some .G | .H => some .H
  | .I => some .I | .J => some .J | .K => some .K | .L => some .L
  | .M => some .M | .N => some .N | .O => some .O | .P => some .P
  | .Q => some .Q | .R => some .R | .S => some .S | .T => some .T
  | .U => some .U | .V => some .V | .W => some .W | .X => some .X
  | .Y => some .Y | .Z => some .Z
  | .F1 => some .F1 | .F2 => some .F2 | .F3 => some .F3 | .F4 => some .F4
  | .F5 => some .F5 | .F6 => some .F6 | .F7 => some .F7 | .F8 => some .F8
  | .F9 => some .F9 | .F10 => some .F10 | .F11 => some .F11 | .F12 => some .F12
  | .F13 => some .F13 | .F14 => some .F14 | .F15 => some .F15 | .F16 => some .F16
  | .F17 => some .F17 | .F18 => some .F18 | .F19 => some .F19 | .F20 => some .F20
  | .Other _ => none

/-- `translate_cursor`. -/
def translate_cursor : CursorIcon → Option WinitCursorIcon
  | .None => none
  | .Alias => some .Alias
  | .AllScroll => some .AllScroll
  | .Cell => some .Cell
  | .ContextMenu => some .ContextMenu
  | .Copy => some .Copy
  | .Crosshair => some .Crosshair
  | .Default => some .Default
  | .Grab => some .Grab
  | .Grabbing => some .Grabbing
  | .Help => some .Help
  | .Move => some .Move
  | .NoDrop => some .NoDrop
  | .NotAllowed => some .NotAllowed
  | .PointingHand => some .Hand
  | .Progress => some .Progress
  | .ResizeHorizontal => some .EwResize
  | .ResizeNeSw => some .NeswResize
  | .ResizeNwSe => some .NwseResize
  | .ResizeVertical => some .NsResize
  | .ResizeEast => some .EResize
  | .ResizeSouthEast => some .SeResize
  | .ResizeSouth => some .SResize
  | .ResizeSouthWest => some .SwResize
  | .ResizeWest => some .WResize
  | .ResizeNorthWest => some .NwResize
  | .ResizeNorth => some .NResize
  | .ResizeNorthEast => some .NeResize
  | .ResizeColumn => some .ColResize
  | .ResizeRow => some .RowResize
  | .Text => some .Text
  | .VerticalText => some .VerticalText
  | .Wait => some .Wait
  | .ZoomIn => some .ZoomIn
  | .ZoomOut => some .ZoomOut

/-! ## The translator's event handlers -/

/-- `State::on_mouse_button_input`. -/
def on_mouse_button_input (s : EState) (state : ElementState) (button : MouseButton) :
    EState :=
  match s.pointer_pos_in_points with
  | none => s
  | some pos =>
    match translate_mouse_button button with
    | none => s
    | some button =>
      let pressed := state == ElementState.Pressed
      let s := push s (Event.PointerButton pos button pressed s.modifiers)
      if s.simulate_touch_screen then
        if pressed then
          let s := { s with any_pointer_button_down := true }
          push s (Event.Touch 0 0 TouchPhase.Start pos none)
        else
          let s := { s with any_pointer_button_down := false }
          let s := push s Event.PointerGone
          push s (Event.Touch 0 0 TouchPhase.End pos none)
      else s

/-- `State::on_cursor_moved`. -/
def on_cursor_moved (s : EState) (pos_in_pixels : ℚ × ℚ) : EState :=
  let pos_in_points :=
    (pos_in_pixels.1 / s.current_pixels_per_point,
      pos_in_pixels.2 / s.current_pixels_per_point)
  let s := { s with pointer_pos_in_points := some pos_in_points }
  if s.simulate_touch_screen then
    if s.any_pointer_button_down then
      let s := push s (Event.PointerMoved pos_in_points)
      push s (Event.Touch 0 0 TouchPhase.Move pos_in_points none)
    else s
  else
    push s (Event.PointerMoved pos_in_points)

/-- The raw `egui::Event::Touch` that `State::on_touch` always emits
first (`env.hashFn` models `egui::epaint::util::hash`). -/
def rawTouchEvent (env : Env) (s : EState) (t : Touch) : Event :=
  Event.Touch (env.hashFn t.device_id) t.id
    (match t.phase with
      | .Started => .Start
      | .Moved => .Move
      | .Ended => .End
      | .Cancelled => .Cancel)
    (t.location.1 / s.current_pixels_per_point,
      t.location.2 / s.current_pixels_per_point)
    (match t.force with
      | some (.Normalized force) => some force
      | some (.Calibrated force max_possible_force) => some (force / max_possible_force)
      | none => none)

/-- `State::on_touch`. -/
def on_touch (env : Env) (s : EState) (t : Touch) : EState :=
  let s := push s (rawTouchEvent env s t)
  if s.pointer_touch_id = none ∨ s.pointer_touch_id = some t.id then
    match t.phase with
    | .Started =>
      let s := { s with pointer_touch_id := some t.id }
      let s := on_cursor_moved s t.location
      on_mouse_button_input s ElementState.Pressed MouseButton.Left
    | .Moved =>
      on_cursor_moved s t.location
    | .Ended =>
      let s := { s with pointer_touch_id := none }
      let s := on_mouse_button_input s ElementState.Released MouseButton.Left
      let s := { s with pointer_pos_in_points := none }
      push s Event.PointerGone
    | .Cancelled =>
      let s := { s with pointer_touch_id := none }
      let s := { s with pointer_pos_in_points := none }
      push s Event.PointerGone
  else s

/-- `State::on_mouse_wheel`. -/
def on_mouse_wheel (env : Env) (s : EState) (delta : MouseScrollDelta) : EState :=
  let s :=
    let ud : MouseWheelUnit × (ℚ × ℚ) :=
      match delta with
      | .LineDelta x y => (MouseWheelUnit.Line, (x, y))
      | .PixelDelta x y =>
        (MouseWheelUnit.Point,
          (x / s.current_pixels_per_point, y / s.current_pixels_per_point))
    push s (Event.MouseWheel ud.1 ud.2 s.modifiers)
  let d : ℚ × ℚ :=
    match delta with
    | .LineDelta x y =>
      let points_per_scroll_line : ℚ := 50
      (x * points_per_scroll_line, y * points_per_scroll_line)
    | .PixelDelta x y =>
      (x / s.current_pixels_per_point, y / s.current_pixels_per_point)
  if s.modifiers.ctrl || s.modifiers.command then
    let factor := env.fexp (d.2 / 200)
    push s (Event.Zoom factor)
  else if s.modifiers.shift then
    push s (Event.Scroll (d.1 + d.2, 0))
  else
    push s (Event.Scroll d)

/-- `State::on_keyboard_input` (`env.clipboard` models `self.clipboard.get()`). -/
def on_keyboard_input (env : Env) (s : EState) (input : KeyboardInput) : EState :=
  match input.virtual_keycode with
  | none => s
  | some keycode =>
    let pressed := input.state == ElementState.Pressed
    let s :=
      if pressed then
        if is_cut_command env s.modifiers keycode then
          push s Event.Cut
        else if is_copy_command env s.modifiers keycode then
          push s Event.Copy
        else if is_paste_command env s.modifiers keycode then
          match env.clipboard with
          | some contents =>
            let contents := contents.replace "\r\n" "\n"
            if !contents.isEmpty then push s (Event.Paste contents) else s
          | none => s
        else s
      else s
    match translate_virtual_key_code keycode with
    | some key => push s (Event.Key key pressed false s.modifiers)
    | none => s

/-- `State::set_cursor_icon`: returns the new state and the native
window calls made. -/
def set_cursor_icon (s : EState) (cursor_icon : CursorIcon) :
    EState × List NativeCall :=
  if s.current_cursor_icon = some cursor_icon then
    (s, [])
  else
    let is_pointer_in_window := s.pointer_pos_in_points.isSome
    if is_pointer_in_window then
      let s := { s with current_cursor_icon := some cursor_icon }
      match translate_cursor cursor_icon with
      | some winit_cursor_icon =>
        (s, [NativeCall.SetCursorVisible true, NativeCall.SetCursorIcon winit_cursor_icon])
      | none =>
        (s, [NativeCall.SetCursorVisible false])
    else
      ({ s with current_cursor_icon := none }, [])

/-- `State::on_event`. -/
def on_event (env : Env) (s : EState) (event : WindowEvent) : EState × EventResponse :=
  match event with
  | .ScaleFactorChanged scale_factor =>
    ({ s with pixels_per_point := some scale_factor, current_pixels_per_point := scale_factor },
      { repaint := true, consumed := false })
  | .MouseInput state button =>
    (on_mouse_button_input s state button,
      { repaint := true, consumed := env.wants_pointer_input })
  | .MouseWheel delta =>
    (on_mouse_wheel env s delta,
      { repaint := true, consumed := env.wants_pointer_input })
  | .CursorMoved position =>
    (on_cursor_moved s position,
      { repaint := true, consumed := env.is_using_pointer })
  | .CursorLeft =>
    (push { s with pointer_pos_in_points := none } Event.PointerGone,
      { repaint := true, consumed := false })
  | .Touch touch =>
    (on_touch env s touch,
      { repaint := true,
        consumed :=
          match touch.phase with
          | .Started | .Ended | .Cancelled => env.wants_pointer_input
          | .Moved => env.is_using_pointer })
  | .ReceivedCharacter ch =>
    let is_mac_cmd := env.is_mac && (s.modifiers.ctrl || s.modifiers.mac_cmd)
    if is_printable_char ch && !is_mac_cmd then
      (push s (Event.Text ch),
        { repaint := true, consumed := env.wants_keyboard_input })
    else
      (s, { repaint := true, consumed := false })
  | .Ime ime =>
    let s :=
      match ime with
      | .Enabled | .Disabled => s
      | .Commit text =>
        push { s with input_method_editor_started := false } (Event.CompositionEnd text)
      | .Preedit text =>
        let s :=
          if !s.input_method_editor_started then
            push { s with input_method_editor_started := true } Event.CompositionStart
          else s
        push s (Event.CompositionUpdate text)
    (s, { repaint := true, consumed := env.wants_keyboard_input })
  | .KeyboardInput input =>
    (on_keyboard_input env s input,
      { repaint := true,
        consumed :=
          env.wants_keyboard_input
            || input.virtual_keycode == some VirtualKeyCode.Tab })
  | .Focused focused =>
    (push { s with focused := focused, modifiers := {} } (Event.WindowFocused focused),
      { repaint := true, consumed := false })
  | .HoveredFile path =>
    ({ s with hovered_files := s.hovered_files ++ [path] },
      { repaint := true, consumed := false })
  | .HoveredFileCancelled =>
    ({ s with hovered_files := [] }, { repaint := true, consumed := false })
  | .DroppedFile path =>
    ({ s with hovered_files := [], dropped_files := s.dropped_files ++ [path] },
      { repaint := true, consumed := false })
  | .ModifiersChanged st =>
    ({ s with modifiers :=
        { alt := st.alt
          ctrl := st.ctrl
          shift := st.shift
          mac_cmd := env.is_mac && st.logo
          command := if env.is_mac then st.logo else st.ctrl } },
      { repaint := true, consumed := false })
  | .CloseRequested =>
    (push s Event.CloseRequested, { repaint := true, consumed := true })
  | .CursorEntered | .Destroyed | .Occluded _ | .Resized _ _ | .Moved _ _
  | .ThemeChanged | .TouchpadPressure =>
    (s, { repaint := true, consumed := false })
  | .AxisMotion | .SmartMagnify | .TouchpadRotate =>
    (s, { repaint := false, consumed := false })
  | .TouchpadMagnify delta =>
    let zoom_factor := env.fexp delta
    (push s (Event.Zoom zoom_factor),
      { repaint := true, consumed := env.wants_pointer_input })

/-- Feed a sequence of native events to the translator. -/
def runEvents (env : Env) (s : EState) (evs : List WindowEvent) : EState :=
  evs.foldl (fun s e => (on_event env s e).1) s

/-! ## Specification-side definitions used to state the claims -/

/-- One step of the composition-session scan: `CompositionStart` opens a
session, `CompositionEnd` closes it, every other event leaves it alone. -/
def compStep (b : Bool) (e : Event) : Bool :=
  match e with
  | .CompositionStart => true
  | .CompositionEnd _ => false
  | _ => b

/-- Whether the event trace ends with an open composition session
(a `CompositionStart` not yet matched by a `CompositionEnd`). -/
def compState (es : List Event) : Bool :=
  es.foldl compStep false

/-- `t` extends `s` by appending only events that neither open nor close
a composition session, leaving the IME flag unchanged. -/
def Benign (s t : EState) : Prop :=
  t.input_method_editor_started = s.input_method_editor_started ∧
  ∃ l, t.events = s.events ++ l ∧ ∀ e ∈ l, ∀ b, compStep b e = b

/-- The IME invariant: whenever the in-progress flag is set, the trace
has an open composition session. -/
def ImeInv (s : EState) : Prop :=
  s.input_method_editor_started = true → compState s.events = true

/-- The seven creation-only fields of a builder, bundled. -/
def creationFields (b : ViewportBuilder) :
    Option Bool × Option Bool × Option Bool × Option Bool ×
      Option Bool × Option Bool × Option Bool :=
  (b.active, b.close_button, b.minimize_button, b.maximize_button,
    b.title_hidden, b.titlebar_transparent, b.fullsize_content_view)

/-! ## Concrete inputs used by counterexamples and witnesses -/

/-- Desired descriptor with only `visible = Some(true)` set. -/
def vb_visible : ViewportBuilder := { visible := some true }

/-- Previous descriptor agreeing with `vb_visible` on the `visible` field. -/
def vb_visible_last : ViewportBuilder := { title := "w", visible := some true }

/-- Desired descriptor setting every creation-only field. -/
def vb_creation : ViewportBuilder :=
  { active := some true, close_button := some false, minimize_button := some true,
    maximize_button := some false, title_hidden := some true,
    titlebar_transparent := some true, fullsize_content_view := some true }

/-- Translator state with the zoom modifier (ctrl) held. -/
def state_ctrl : EState := { initState with modifiers := { ctrl := true } }

/-- Translator state with a known pointer position. -/
def state_pointer : EState := { initState with pointer_pos_in_points := some (1, 1) }

/-- Translator state that has already recorded the `Default` cursor icon
while the pointer position is unknown. -/
def state_icon_no_pointer : EState :=
  { initState with current_cursor_icon := some CursorIcon.Default }

/-- Translator state holding touch id 5 as the pointer surrogate. -/
def state_touch5 : EState := { initState with pointer_touch_id := some 5 }

/-- A touch with an identifier (7) different from the held surrogate (5). -/
def touch7 : Touch :=
  { device_id := 3, id := 7, phase := WinitTouchPhase.Started,
    location := (10, 20), force := none }

/-! ## Reconciler lemmas: the command phase never touches creation-only
fields and never emits button commands -/

lemma step_position_creation (nw : ViewportBuilder)
    (acc : List ViewportCommand × ViewportBuilder) :
    creationFields (step_position nw acc).2 = creationFields acc.2 := by
  unfold step_position
  split
  · split
    · split <;> rfl
    · rfl
  · rfl

lemma step_inner_size_creation (nw : ViewportBuilder)
    (acc : List ViewportCommand × ViewportBuilder) :
    creationFields (step_inner_size nw acc).2 = creationFields acc.2 := by
  unfold step_inner_size
  split
  · split
    · split <;> rfl
    · rfl
  · rfl

lemma step_min_inner_size_creation (nw : ViewportBuilder)
    (acc : List ViewportCommand × ViewportBuilder) :
    creationFields (step_min_inner_size nw acc).2 = creationFields acc.2 := by
  unfold step_min_inner_size
  split
  · split <;> rfl
  · rfl

lemma step_max_inner_size_creation (nw : ViewportBuilder)
    (acc : List ViewportCommand × ViewportBuilder) :
    creationFields (step_max_inner_size nw acc).2 = creationFields acc.2 := by
  unfold step_max_inner_size
  split
  · split <;> rfl
  · rfl

lemma step_fullscreen_creation (nw : ViewportBuilder)
    (acc : List ViewportCommand × ViewportBuilder) :
    creationFields (step_fullscreen nw acc).2 = creationFields acc.2 := by
  unfold step_fullscreen
  split
  · split <;> rfl
  · rfl

lemma step_minimized_creation (nw : ViewportBuilder)
    (acc : List ViewportCommand × ViewportBuilder) :
    creationFields (step_minimized nw acc).2 = creationFields acc.2 := by
  unfold step_minimized
  split
  · split <;> rfl
  · rfl

lemma step_maximized_creation (nw : ViewportBuilder)
    (acc : List ViewportCommand × ViewportBuilder) :
    creationFields (step_maximized nw acc).2 = creationFields acc.2 := by
  unfold step_maximized
  split
  · split <;> rfl
  · rfl

lemma step_resizable_creation (nw : ViewportBuilder)
    (acc : List ViewportCommand × ViewportBuilder) :
    creationFields (step_resizable nw acc).2 = creationFields acc.2 := by
  unfold step_resizable
  split
  · split <;> rfl
  · rfl

lemma step_transparent_creation (nw : ViewportBuilder)
    (acc : List ViewportCommand × ViewportBuilder) :
    creationFields (step_transparent nw acc).2 = creationFields acc.2 := by
  unfold step_transparent
  split
  · split <;> rfl
  · rfl

lemma step_decorations_creation (nw : ViewportBuilder)
    (acc : List ViewportCommand × ViewportBuilder) :
    creationFields (step_decorations nw acc).2 = creationFields acc.2 := by
  unfold step_decorations
  split
  · split <;> rfl
  · rfl

lemma step_icon_creation (nw : ViewportBuilder)
    (acc : List ViewportCommand × ViewportBuilder) :
    creationFields (step_icon nw acc).2 = creationFields acc.2 := by
  unfold step_icon
  split
  all_goals try rfl
  all_goals dsimp only
  all_goals split <;> rfl

lemma step_visible_creation (nw : ViewportBuilder)
    (acc : List ViewportCommand × ViewportBuilder) :
    creationFields (step_visible nw acc).2 = creationFields acc.2 := by
  unfold step_visible
  split
  · split <;> rfl
  · rfl

lemma step_hittest_creation (nw : ViewportBuilder)
    (acc : List ViewportCommand × ViewportBuilder) :
    creationFields (step_hittest nw acc).2 = creationFields acc.2 := by
  unfold step_hittest
  split
  · split <;> rfl
  · rfl

lemma commandsPhase_creation (nw last : ViewportBuilder) :
    creationFields (commandsPhase nw last).2 = creationFields last := by
  show creationFields (step_hittest nw (step_visible nw (step_icon nw (step_decorations nw
    (step_transparent nw (step_resizable nw (step_maximized nw (step_minimized nw
      (step_fullscreen nw (step_max_inner_size nw (step_min_inner_size nw
        (step_inner_size nw (step_position nw ([], last)))))))))))))).2 = creationFields last
  rw [step_hittest_creation, step_visible_creation, step_icon_creation,
    step_decorations_creation, step_transparent_creation, step_resizable_creation,
    step_maximized_creation, step_minimized_creation, step_fullscreen_creation,
    step_max_inner_size_creation, step_min_inner_size_creation,
    step_inner_size_creation, step_position_creation]

lemma kinds_append {l : List ViewportCommand} {c0 : ViewportCommand}
    (h : ∀ c ∈ l, c.isEnableButtons = false) (h0 : c0.isEnableButtons = false) :
    ∀ c ∈ l ++ [c0], c.isEnableButtons = false := by
  intro c hc
  rcases List.mem_append.mp hc with h' | h'
  · exact h c h'
  · rw [List.mem_singleton.mp h']
    exact h0

lemma step_position_kinds (nw : ViewportBuilder)
    (acc : List ViewportCommand × ViewportBuilder)
    (h : ∀ c ∈ acc.1, c.isEnableButtons = false) :
    ∀ c ∈ (step_position nw acc).1, c.isEnableButtons = false := by
  unfold step_position
  split
  · split
    · split
      · exact kinds_append h rfl
      · exact h
    · exact h
  · exact h

lemma step_inner_size_kinds (nw : ViewportBuilder)
    (acc : List ViewportCommand × ViewportBuilder)
    (h : ∀ c ∈ acc.1, c.isEnableButtons = false) :
    ∀ c ∈ (step_inner_size nw acc).1, c.isEnableButtons = false := by
  unfold step_inner_size
  split
  · split
    · split
      · exact kinds_append h rfl
      · exact h
    · exact h
  · exact h

lemma step_min_inner_size_kinds (nw : ViewportBuilder)
    (acc : List ViewportCommand × ViewportBuilder)
    (h : ∀ c ∈ acc.1, c.isEnableButtons = false) :
    ∀ c ∈ (step_min_inner_size nw acc).1, c.isEnableButtons = false := by
  unfold step_min_inner_size
  split
  · split
    · exact kinds_append h rfl
    · exact h
  · exact h

lemma step_max_inner_size_kinds (nw : ViewportBuilder)
    (acc : List ViewportCommand × ViewportBuilder)
    (h : ∀ c ∈ acc.1, c.isEnableButtons = false) :
    ∀ c ∈ (step_max_inner_size nw acc).1, c.isEnableButtons = false := by
  unfold step_max_inner_size
  split
  · split
    · exact kinds_append h rfl
    · exact h
  · exact h

lemma step_fullscreen_kinds (nw : ViewportBuilder)
    (acc : List ViewportCommand × ViewportBuilder)
    (h : ∀ c ∈ acc.1, c.isEnableButtons = false) :
    ∀ c ∈ (step_fullscreen nw acc).1, c.isEnableButtons = false := by
  unfold step_fullscreen
  split
  · split
    · exact kinds_append h rfl
    · exact h
  · exact h

lemma step_minimized_kinds (nw : ViewportBuilder)
    (acc : List ViewportCommand × ViewportBuilder)
    (h : ∀ c ∈ acc.1, c.isEnableButtons = false) :
    ∀ c ∈ (step_minimized nw acc).1, c.isEnableButtons = false := by
  unfold step_minimized
  split
  · split
    · exact kinds_append h rfl
    · exact h
  · exact h

lemma step_maximized_kinds (nw : ViewportBuilder)
    (acc : List ViewportCommand × ViewportBuilder)
    (h : ∀ c ∈ acc.1, c.isEnableButtons = false) :
    ∀ c ∈ (step_maximized nw acc).1, c.isEnableButtons = false := by
  unfold step_maximized
  split
  · split
    · exact kinds_append h rfl
    · exact h
  · exact h

lemma step_resizable_kinds (nw : ViewportBuilder)
    (acc : List ViewportCommand × ViewportBuilder)
    (h : ∀ c ∈ acc.1, c.isEnableButtons = false) :
    ∀ c ∈ (step_resizable nw acc).1, c.isEnableButtons = false := by
  unfold step_resizable
  split
  · split
    · exact kinds_append h rfl
    · exact h
  · exact h

lemma step_transparent_kinds (nw : ViewportBuilder)
    (acc : List ViewportCommand × ViewportBuilder)
    (h : ∀ c ∈ acc.1, c.isEnableButtons = false) :
    ∀ c ∈ (step_transparent nw acc).1, c.isEnableButtons = false := by
  unfold step_transparent
  split
  · split
    · exact kinds_append h rfl
    · exact h
  · exact h

lemma step_decorations_kinds (nw : ViewportBuilder)
    (acc : List ViewportCommand × ViewportBuilder)
    (h : ∀ c ∈ acc.1, c.isEnableButtons = false) :
    ∀ c ∈ (step_decorations nw acc).1, c.isEnableButtons = false := by
  unfold step_decorations
  split
  · split
    · exact kinds_append h rfl
    · exact h
  · exact h

lemma step_icon_kinds (nw : ViewportBuilder)
    (acc : List ViewportCommand × ViewportBuilder)
    (h : ∀ c ∈ acc.1, c.isEnableButtons = false) :
    ∀ c ∈ (step_icon nw acc).1, c.isEnableButtons = false := by
  unfold step_icon
  split
  all_goals try exact h
  all_goals dsimp only
  all_goals split
  all_goals first
    | exact kinds_append h rfl
    | exact h

lemma step_visible_kinds (nw : ViewportBuilder)
    (acc : List ViewportCommand × ViewportBuilder)
    (h : ∀ c ∈ acc.1, c.isEnableButtons = false) :
    ∀ c ∈ (step_visible nw acc).1, c.isEnableButtons = false := by
  unfold step_visible
  split
  · split
    · exact kinds_append h rfl
    · exact h
  · exact h

lemma step_hittest_kinds (nw : ViewportBuilder)
    (acc : List ViewportCommand × ViewportBuilder)
    (h : ∀ c ∈ acc.1, c.isEnableButtons = false) :
    ∀ c ∈ (step_hittest nw acc).1, c.isEnableButtons = false := by
  unfold step_hittest
  split
  · split
    · exact kinds_append h rfl
    · exact h
  · exact h

lemma commandsPhase_kinds (nw last : ViewportBuilder) :
    ∀ c ∈ (commandsPhase nw last).1, c.isEnableButtons = false := by
  exact step_hittest_kinds _ _ (step_visible_kinds _ _ (step_icon_kinds _ _
    (step_decorations_kinds _ _ (step_transparent_kinds _ _ (step_resizable_kinds _ _
      (step_maximized_kinds _ _ (step_minimized_kinds _ _ (step_fullscreen_kinds _ _
        (step_max_inner_size_kinds _ _ (step_min_inner_size_kinds _ _
          (step_inner_size_kinds _ _ (step_position_kinds _ _
            (fun c hc => absurd hc (List.not_mem_nil c))))))))))))))

/-! ## Reconciler lemmas: the recreate phase

For each creation-only field the corresponding step sets the flag and
field when the desired value is specified and differs (`_set`), keeps an
already-set flag (`_mono`), and leaves the other six creation-only
fields untouched (`_pres`; the slot of the step's own field holds
`True` so that the selectors are uniform across the seven lemmas). -/

lemma step_active_pres (nw : ViewportBuilder) (acc : Bool × ViewportBuilder) :
    True ∧
    (step_active nw acc).2.close_button = acc.2.close_button ∧
    (step_active nw acc).2.minimize_button = acc.2.minimize_button ∧
    (step_active nw acc).2.maximize_button = acc.2.maximize_button ∧
    (step_active nw acc).2.title_hidden = acc.2.title_hidden ∧
    (step_active nw acc).2.titlebar_transparent = acc.2.titlebar_transparent ∧
    (step_active nw acc).2.fullsize_content_view = acc.2.fullsize_content_view := by
  unfold step_active
  split
  · split <;> exact ⟨trivial, rfl, rfl, rfl, rfl, rfl, rfl⟩
  · exact ⟨trivial, rfl, rfl, rfl, rfl, rfl, rfl⟩

lemma step_close_button_pres (nw : ViewportBuilder) (acc : Bool × ViewportBuilder) :
    (step_close_button nw acc).2.active = acc.2.active ∧
    True ∧
    (step_close_button nw acc).2.minimize_button = acc.2.minimize_button ∧
    (step_close_button nw acc).2.maximize_button = acc.2.maximize_button ∧
    (step_close_button nw acc).2.title_hidden = acc.2.title_hidden ∧
    (step_close_button nw acc).2.titlebar_transparent = acc.2.titlebar_transparent ∧
    (step_close_button nw acc).2.fullsize_content_view = acc.2.fullsize_content_view := by
  unfold step_close_button
  split
  · split <;> exact ⟨rfl, trivial, rfl, rfl, rfl, rfl, rfl⟩
  · exact ⟨rfl, trivial, rfl, rfl, rfl, rfl, rfl⟩

lemma step_minimize_button_pres (nw : ViewportBuilder) (acc : Bool × ViewportBuilder) :
    (step_minimize_button nw acc).2.active = acc.2.active ∧
    (step_minimize_button nw acc).2.close_button = acc.2.close_button ∧
    True ∧
    (step_minimize_button nw acc).2.maximize_button = acc.2.maximize_button ∧
    (step_minimize_button nw acc).2.title_hidden = acc.2.title_hidden ∧
    (step_minimize_button nw acc).2.titlebar_transparent = acc.2.titlebar_transparent ∧
    (step_minimize_button nw acc).2.fullsize_content_view = acc.2.fullsize_content_view := by
  unfold step_minimize_button
  split
  · split <;> exact ⟨rfl, rfl, trivial, rfl, rfl, rfl, rfl⟩
  · exact ⟨rfl, rfl, trivial, rfl, rfl, rfl, rfl⟩

lemma step_maximize_button_pres (nw : ViewportBuilder) (acc : Bool × ViewportBuilder) :
    (step_maximize_button nw acc).2.active = acc.2.active ∧
    (step_maximize_button nw acc).2.close_button = acc.2.close_button ∧
    (step_maximize_button nw acc).2.minimize_button = acc.2.minimize_button ∧
    True ∧
    (step_maximize_button nw acc).2.title_hidden = acc.2.title_hidden ∧
    (step_maximize_button nw acc).2.titlebar_transparent = acc.2.titlebar_transparent ∧
    (step_maximize_button nw acc).2.fullsize_content_view = acc.2.fullsize_content_view := by
  unfold step_maximize_button
  split
  · split <;> exact ⟨rfl, rfl, rfl, trivial, rfl, rfl, rfl⟩
  · exact ⟨rfl, rfl, rfl, trivial, rfl, rfl, rfl⟩

lemma step_title_hidden_pres (nw : ViewportBuilder) (acc : Bool × ViewportBuilder) :
    (step_title_hidden nw acc).2.active = acc.2.active ∧
    (step_title_hidden nw acc).2.close_button = acc.2.close_button ∧
    (step_title_hidden nw acc).2.minimize_button = acc.2.minimize_button ∧
    (step_title_hidden nw acc).2.maximize_button = acc.2.maximize_button ∧
    True ∧
    (step_title_hidden nw acc).2.titlebar_transparent = acc.2.titlebar_transparent ∧
    (step_title_hidden nw acc).2.fullsize_content_view = acc.2.fullsize_content_view := by
  unfold step_title_hidden
  split
  · split <;> exact ⟨rfl, rfl, rfl, rfl, trivial, rfl, rfl⟩
  · exact ⟨rfl, rfl, rfl, rfl, trivial, rfl, rfl⟩

lemma step_titlebar_transparent_pres (nw : ViewportBuilder) (acc : Bool × ViewportBuilder) :
    (step_titlebar_transparent nw acc).2.active = acc.2.active ∧
    (step_titlebar_transparent nw acc).2.close_button = acc.2.close_button ∧
    (step_titlebar_transparent nw acc).2.minimize_button = acc.2.minimize_button ∧
    (step_titlebar_transparent nw acc).2.maximize_button = acc.2.maximize_button ∧
    (step_titlebar_transparent nw acc).2.title_hidden = acc.2.title_hidden ∧
    True ∧
    (step_titlebar_transparent nw acc).2.fullsize_content_view = acc.2.fullsize_content_view := by
  unfold step_titlebar_transparent
  split
  · split <;> exact ⟨rfl, rfl, rfl, rfl, rfl, trivial, rfl⟩
  · exact ⟨rfl, rfl, rfl, rfl, rfl, trivial, rfl⟩

lemma step_fullsize_content_view_pres (nw : ViewportBuilder) (acc : Bool × ViewportBuilder) :
    (step_fullsize_content_view nw acc).2.active = acc.2.active ∧
    (step_fullsize_content_view nw acc).2.close_button = acc.2.close_button ∧
    (step_fullsize_content_view nw acc).2.minimize_button = acc.2.minimize_button ∧
    (step_fullsize_content_view nw acc).2.maximize_button = acc.2.maximize_button ∧
    (step_fullsize_content_view nw acc).2.title_hidden = acc.2.title_hidden ∧
    (step_fullsize_content_view nw acc).2.titlebar_transparent = acc.2.titlebar_transparent ∧
    True := by
  unfold step_fullsize_content_view
  split
  · split <;> exact ⟨rfl, rfl, rfl, rfl, rfl, rfl, trivial⟩
  · exact ⟨rfl, rfl, rfl, rfl, rfl, rfl, trivial⟩

lemma step_active_mono (nw : ViewportBuilder) (acc : Bool × ViewportBuilder)
    (h : acc.1 = true) : (step_active nw acc).1 = true := by
  unfold step_active
  split
  · split
    · rfl
    · exact h
  · exact h

lemma step_close_button_mono (nw : ViewportBuilder) (acc : Bool × ViewportBuilder)
    (h : acc.1 = true) : (step_close_button nw acc).1 = true := by
  unfold step_close_button
  split
  · split
    · rfl
    · exact h
  · exact h

lemma step_minimize_button_mono (nw : ViewportBuilder) (acc : Bool × ViewportBuilder)
    (h : acc.1 = true) : (step_minimize_button nw acc).1 = true := by
  unfold step_minimize_button
  split
  · split
    · rfl
    · exact h
  · exact h

lemma step_maximize_button_mono (nw : ViewportBuilder) (acc : Bool × ViewportBuilder)
    (h : acc.1 = true) : (step_maximize_button nw acc).1 = true := by
  unfold step_maximize_button
  split
  · split
    · rfl
    · exact h
  · exact h

lemma step_title_hidden_mono (nw : ViewportBuilder) (acc : Bool × ViewportBuilder)
    (h : acc.1 = true) : (step_title_hidden nw acc).1 = true := by
  unfold step_title_hidden
  split
  · split
    · rfl
    · exact h
  · exact h

lemma step_titlebar_transparent_mono (nw : ViewportBuilder) (acc : Bool × ViewportBuilder)
    (h : acc.1 = true) : (step_titlebar_transparent nw acc).1 = true := by
  unfold step_titlebar_transparent
  split
  · split
    · rfl
    · exact h
  · exact h

lemma step_fullsize_content_view_mono (nw : ViewportBuilder) (acc : Bool × ViewportBuilder)
    (h : acc.1 = true) : (step_fullsize_content_view nw acc).1 = true := by
  unfold step_fullsize_content_view
  split
  · split
    · rfl
    · exact h
  · exact h

lemma step_active_set (nw : ViewportBuilder) (acc : Bool × ViewportBuilder) (v : Bool)
    (h1 : nw.active = some v) (h2 : acc.2.active ≠ some v) :
    (step_active nw acc).1 = true ∧ (step_active nw acc).2.active = some v := by
  unfold step_active
  rw [h1]
  dsimp only
  rw [if_pos (Ne.symm h2)]
  exact ⟨rfl, rfl⟩

lemma step_close_button_set (nw : ViewportBuilder) (acc : Bool × ViewportBuilder) (v : Bool)
    (h1 : nw.close_button = some v) (h2 : acc.2.close_button ≠ some v) :
    (step_close_button nw acc).1 = true ∧ (step_close_button nw acc).2.close_button = some v := by
  unfold step_close_button
  rw [h1]
  dsimp only
  rw [if_pos (Ne.symm h2)]
  exact ⟨rfl, rfl⟩

lemma step_minimize_button_set (nw : ViewportBuilder) (acc : Bool × ViewportBuilder) (v : Bool)
    (h1 : nw.minimize_button = some v) (h2 : acc.2.minimize_button ≠ some v) :
    (step_minimize_button nw acc).1 = true ∧
      (step_minimize_button nw acc).2.minimize_button = some v := by
  unfold step_minimize_button
  rw [h1]
  dsimp only
  rw [if_pos (Ne.symm h2)]
  exact ⟨rfl, rfl⟩

lemma step_maximize_button_set (nw : ViewportBuilder) (acc : Bool × ViewportBuilder) (v : Bool)
    (h1 : nw.maximize_button = some v) (h2 : acc.2.maximize_button ≠ some v) :
    (step_maximize_button nw acc).1 = true ∧
      (step_maximize_button nw acc).2.maximize_button = some v := by
  unfold step_maximize_button
  rw [h1]
  dsimp only
  rw [if_pos (Ne.symm h2)]
  exact ⟨rfl, rfl⟩

lemma step_title_hidden_set (nw : ViewportBuilder) (acc : Bool × ViewportBuilder) (v : Bool)
    (h1 : nw.title_hidden = some v) (h2 : acc.2.title_hidden ≠ some v) :
    (step_title_hidden nw acc).1 = true ∧
      (step_title_hidden nw acc).2.title_hidden = some v := by
  unfold step_title_hidden
  rw [h1]
  dsimp only
  rw [if_pos (Ne.symm h2)]
  exact ⟨rfl, rfl⟩

lemma step_titlebar_transparent_set (nw : ViewportBuilder) (acc : Bool × ViewportBuilder)
    (v : Bool) (h1 : nw.titlebar_transparent = some v)
    (h2 : acc.2.titlebar_transparent ≠ some v) :
    (step_titlebar_transparent nw acc).1 = true ∧
      (step_titlebar_transparent nw acc).2.titlebar_transparent = some v := by
  unfold step_titlebar_transparent
  rw [h1]
  dsimp only
  rw [if_pos (Ne.symm h2)]
  exact ⟨rfl, rfl⟩

lemma step_fullsize_content_view_set (nw : ViewportBuilder) (acc : Bool × ViewportBuilder)
    (v : Bool) (h1 : nw.fullsize_content_view = some v)
    (h2 : acc.2.fullsize_content_view ≠ some v) :
    (step_fullsize_content_view nw acc).1 = true ∧
      (step_fullsize_content_view nw acc).2.fullsize_content_view = some v := by
  unfold step_fullsize_content_view
  rw [h1]
  dsimp only
  rw [if_pos (Ne.symm h2)]
  exact ⟨rfl, rfl⟩

lemma recreatePhase_active (nw last : ViewportBuilder) (v : Bool)
    (h1 : nw.active = some v) (h2 : last.active ≠ some v) :
    (recreatePhase nw last).1 = true ∧ (recreatePhase nw last).2.active = some v := by
  simp only [recreatePhase]
  have hset := step_active_set nw (false, last) v h1 h2
  refine ⟨?_, ?_⟩
  · exact step_fullsize_content_view_mono _ _ (step_titlebar_transparent_mono _ _
      (step_title_hidden_mono _ _ (step_maximize_button_mono _ _
        (step_minimize_button_mono _ _ (step_close_button_mono _ _ hset.1)))))
  · rw [(step_fullsize_content_view_pres nw _).1, (step_titlebar_transparent_pres nw _).1,
      (step_title_hidden_pres nw _).1, (step_maximize_button_pres nw _).1,
      (step_minimize_button_pres nw _).1, (step_close_button_pres nw _).1]
    exact hset.2

lemma recreatePhase_close_button (nw last : ViewportBuilder) (v : Bool)
    (h1 : nw.close_button = some v) (h2 : last.close_button ≠ some v) :
    (recreatePhase nw last).1 = true ∧ (recreatePhase nw last).2.close_button = some v := by
  simp only [recreatePhase]
  have e1 := (step_active_pres nw (false, last)).2.1
  have hset := step_close_button_set nw (step_active nw (false, last)) v h1
    (by rw [e1]; exact h2)
  refine ⟨?_, ?_⟩
  · exact step_fullsize_content_view_mono _ _ (step_titlebar_transparent_mono _ _
      (step_title_hidden_mono _ _ (step_maximize_button_mono _ _
        (step_minimize_button_mono _ _ hset.1))))
  · rw [(step_fullsize_content_view_pres nw _).2.1, (step_titlebar_transparent_pres nw _).2.1,
      (step_title_hidden_pres nw _).2.1, (step_maximize_button_pres nw _).2.1,
      (step_minimize_button_pres nw _).2.1]
    exact hset.2

lemma recreatePhase_minimize_button (nw last : ViewportBuilder) (v : Bool)
    (h1 : nw.minimize_button = some v) (h2 : last.minimize_button ≠ some v) :
    (recreatePhase nw last).1 = true ∧
      (recreatePhase nw last).2.minimize_button = some v := by
  simp only [recreatePhase]
  have e1 := (step_active_pres nw (false, last)).2.2.1
  have e2 := (step_close_button_pres nw (step_active nw (false, last))).2.2.1
  have hset := step_minimize_button_set nw
    (step_close_button nw (step_active nw (false, last))) v h1
    (by rw [e2, e1]; exact h2)
  refine ⟨?_, ?_⟩
  · exact step_fullsize_content_view_mono _ _ (step_titlebar_transparent_mono _ _
      (step_title_hidden_mono _ _ (step_maximize_button_mono _ _ hset.1)))
  · rw [(step_fullsize_content_view_pres nw _).2.2.1,
      (step_titlebar_transparent_pres nw _).2.2.1,
      (step_title_hidden_pres nw _).2.2.1, (step_maximize_button_pres nw _).2.2.1]
    exact hset.2

lemma recreatePhase_maximize_button (nw last : ViewportBuilder) (v : Bool)
    (h1 : nw.maximize_button = some v) (h2 : last.maximize_button ≠ some v) :
    (recreatePhase nw last).1 = true ∧
      (recreatePhase nw last).2.maximize_button = some v := by
  simp only [recreatePhase]
  have e1 := (step_active_pres nw (false, last)).2.2.2.1
  have e2 := (step_close_button_pres nw (step_active nw (false, last))).2.2.2.1
  have e3 := (step_minimize_button_pres nw
    (step_close_button nw (step_active nw (false, last)))).2.2.2.1
  have hset := step_maximize_button_set nw
    (step_minimize_button nw (step_close_button nw (step_active nw (false, last)))) v h1
    (by rw [e3, e2, e1]; exact h2)
  refine ⟨?_, ?_⟩
  · exact step_fullsize_content_view_mono _ _ (step_titlebar_transparent_mono _ _
      (step_title_hidden_mono _ _ hset.1))
  · rw [(step_fullsize_content_view_pres nw _).2.2.2.1,
      (step_titlebar_transparent_pres nw _).2.2.2.1,
      (step_title_hidden_pres nw _).2.2.2.1]
    exact hset.2

lemma recreatePhase_title_hidden (nw last : ViewportBuilder) (v : Bool)
    (h1 : nw.title_hidden = some v) (h2 : last.title_hidden ≠ some v) :
    (recreatePhase nw last).1 = true ∧
      (recreatePhase nw last).2.title_hidden = some v := by
  simp only [recreatePhase]
  have e1 := (step_active_pres nw (false, last)).2.2.2.2.1
  have e2 := (step_close_button_pres nw (step_active nw (false, last))).2.2.2.2.1
  have e3 := (step_minimize_button_pres nw
    (step_close_button nw (step_active nw (false, last)))).2.2.2.2.1
  have e4 := (step_maximize_button_pres nw (step_minimize_button nw
    (step_close_button nw (step_active nw (false, last))))).2.2.2.2.1
  have hset := step_title_hidden_set nw
    (step_maximize_button nw (step_minimize_button nw
      (step_close_button nw (step_active nw (false, last))))) v h1
    (by rw [e4, e3, e2, e1]; exact h2)
  refine ⟨?_, ?_⟩
  · exact step_fullsize_content_view_mono _ _ (step_titlebar_transparent_mono _ _ hset.1)
  · rw [(step_fullsize_content_view_pres nw _).2.2.2.2.1,
      (step_titlebar_transparent_pres nw _).2.2.2.2.1]
    exact hset.2

lemma recreatePhase_titlebar_transparent (nw last : ViewportBuilder) (v : Bool)
    (h1 : nw.titlebar_transparent = some v) (h2 : last.titlebar_transparent ≠ some v) :
    (recreatePhase nw last).1 = true ∧
      (recreatePhase nw last).2.titlebar_transparent = some v := by
  simp only [recreatePhase]
  have e1 := (step_active_pres nw (false, last)).2.2.2.2.2.1
  have e2 := (step_close_button_pres nw (step_active nw (false, last))).2.2.2.2.2.1
  have e3 := (step_minimize_button_pres nw
    (step_close_button nw (step_active nw (false, last)))).2.2.2.2.2.1
  have e4 := (step_maximize_button_pres nw (step_minimize_button nw
    (step_close_button nw (step_active nw (false, last))))).2.2.2.2.2.1
  have e5 := (step_title_hidden_pres nw (step_maximize_button nw (step_minimize_button nw
    (step_close_button nw (step_active nw (false, last)))))).2.2.2.2.2.1
  have hset := step_titlebar_transparent_set nw
    (step_title_hidden nw (step_maximize_button nw (step_minimize_button nw
      (step_close_button nw (step_active nw (false, last)))))) v h1
    (by rw [e5, e4, e3, e2, e1]; exact h2)
  refine ⟨?_, ?_⟩
  · exact step_fullsize_content_view_mono _ _ hset.1
  · rw [(step_fullsize_content_view_pres nw _).2.2.2.2.2.1]
    exact hset.2

lemma recreatePhase_fullsize_content_view (nw last : ViewportBuilder) (v : Bool)
    (h1 : nw.fullsize_content_view = some v) (h2 : last.fullsize_content_view ≠ some v) :
    (recreatePhase nw last).1 = true ∧
      (recreatePhase nw last).2.fullsize_content_view = some v := by
  simp only [recreatePhase]
  have e1 := (step_active_pres nw (false, last)).2.2.2.2.2.2
  have e2 := (step_close_button_pres nw (step_active nw (false, last))).2.2.2.2.2.2
  have e3 := (step_minimize_button_pres nw
    (step_close_button nw (step_active nw (false, last)))).2.2.2.2.2.2
  have e4 := (step_maximize_button_pres nw (step_minimize_button nw
    (step_close_button nw (step_active nw (false, last))))).2.2.2.2.2.2
  have e5 := (step_title_hidden_pres nw (step_maximize_button nw (step_minimize_button nw
    (step_close_button nw (step_active nw (false, last)))))).2.2.2.2.2.2
  have e6 := (step_titlebar_transparent_pres nw (step_title_hidden nw
    (step_maximize_button nw (step_minimize_button nw
      (step_close_button nw (step_active nw (false, last))))))).2.2.2.2.2.2
  have hset := step_fullsize_content_view_set nw
    (step_titlebar_transparent nw (step_title_hidden nw (step_maximize_button nw
      (step_minimize_button nw (step_close_button nw
        (step_active nw (false, last))))))) v h1
    (by rw [e6, e5, e4, e3, e2, e1]; exact h2)
  exact hset

/-! ## Composition-session lemmas -/

lemma foldl_compStep_of_neutral (l : List Event)
    (h : ∀ e ∈ l, ∀ b, compStep b e = b) (b : Bool) :
    l.foldl compStep b = b := by
  induction l generalizing b with
  | nil => rfl
  | cons e l ih =>
    rw [List.foldl_cons, (List.forall_mem_cons.mp h).1 b]
    exact ih (List.forall_mem_cons.mp h).2 b

lemma compState_append_of_neutral (a l : List Event)
    (h : ∀ e ∈ l, ∀ b, compStep b e = b) :
    compState (a ++ l) = compState a := by
  unfold compState
  rw [List.foldl_append]
  exact foldl_compStep_of_neutral l h _

lemma benign_refl (s : EState) : Benign s s :=
  ⟨rfl, [], by simp, by simp⟩

lemma benign_of_events_started {s t : EState} (h1 : t.events = s.events)
    (h2 : t.input_method_editor_started = s.input_method_editor_started) :
    Benign s t :=
  ⟨h2, [], by simp [h1], by simp⟩

lemma benign_trans {s t u : EState} (h1 : Benign s t) (h2 : Benign t u) : Benign s u := by
  obtain ⟨hi1, l1, he1, hn1⟩ := h1
  obtain ⟨hi2, l2, he2, hn2⟩ := h2
  refine ⟨hi2.trans hi1, l1 ++ l2, ?_, ?_⟩
  · rw [he2, he1, List.append_assoc]
  · intro e he b
    rcases List.mem_append.mp he with h' | h'
    · exact hn1 e h' b
    · exact hn2 e h' b

lemma benign_push (s : EState) (e : Event) (h : ∀ b, compStep b e = b) :
    Benign s (push s e) := by
  refine ⟨rfl, [e], rfl, ?_⟩
  intro e' he' b
  rw [List.mem_singleton.mp he']
  exact h b

lemma benign_ImeInv {s t : EState} (hb : Benign s t) (h : ImeInv s) : ImeInv t := by
  obtain ⟨hi, l, he, hn⟩ := hb
  intro ht
  rw [he, compState_append_of_neutral _ l hn]
  exact h (hi ▸ ht)

lemma benign_update_pos (s : EState) (p : Option (ℚ × ℚ)) :
    Benign s { s with pointer_pos_in_points := p } :=
  ⟨rfl, [], by simp, by simp⟩

lemma benign_update_any (s : EState) (b : Bool) :
    Benign s { s with any_pointer_button_down := b } :=
  ⟨rfl, [], by simp, by simp⟩

lemma benign_update_ptid (s : EState) (x : Option Nat) :
    Benign s { s with pointer_touch_id := x } :=
  ⟨rfl, [], by simp, by simp⟩

lemma benign_update_ptid_pos (s : EState) (x : Option Nat) (p : Option (ℚ × ℚ)) :
    Benign s { s with pointer_touch_id := x, pointer_pos_in_points := p } :=
  ⟨rfl, [], by simp, by simp⟩

/-! ## The event handlers only append session-neutral events -/

lemma on_mouse_button_input_benign (s : EState) (state : ElementState)
    (button : MouseButton) : Benign s (on_mouse_button_input s state button) := by
  unfold on_mouse_button_input
  split
  · exact benign_refl s
  · split
    · exact benign_refl s
    · dsimp only
      split
      · split
        · refine benign_trans ?_ (benign_push _ _ ?_)
          · refine benign_trans ?_ (benign_update_any _ _)
            exact benign_push s _ fun _ => rfl
          · intro b; rfl
        · refine benign_trans ?_ (benign_push _ _ ?_)
          · refine benign_trans ?_ (benign_push _ _ ?_)
            · refine benign_trans ?_ (benign_update_any _ _)
              exact benign_push s _ fun _ => rfl
            · intro b; rfl
          · intro b; rfl
      · exact benign_push s _ fun _ => rfl

lemma on_cursor_moved_benign (s : EState) (p : ℚ × ℚ) :
    Benign s (on_cursor_moved s p) := by
  unfold on_cursor_moved
  dsimp only
  split
  · split
    · refine benign_trans ?_ (benign_push _ _ ?_)
      · refine benign_trans ?_ (benign_push _ _ ?_)
        · exact benign_update_pos _ _
        · intro b; rfl
      · intro b; rfl
    · exact benign_update_pos _ _
  · refine benign_trans ?_ (benign_push _ _ ?_)
    · exact benign_update_pos _ _
    · intro b; rfl

lemma on_touch_benign (env : Env) (s : EState) (t : Touch) :
    Benign s (on_touch env s t) := by
  unfold on_touch
  dsimp only
  split
  · cases t.phase with
    | Started =>
      refine benign_trans ?_ (on_mouse_button_input_benign _ _ _)
      refine benign_trans ?_ (on_cursor_moved_benign _ _)
      refine benign_trans ?_ (benign_update_ptid _ _)
      exact benign_push s _ fun _ => rfl
    | Moved =>
      refine benign_trans ?_ (on_cursor_moved_benign _ _)
      exact benign_push s _ fun _ => rfl
    | Ended =>
      refine benign_trans ?_ (benign_push _ _ ?_)
      · refine benign_trans ?_ (benign_update_pos _ _)
        refine benign_trans ?_ (on_mouse_button_input_benign _ _ _)
        refine benign_trans ?_ (benign_update_ptid _ _)
        exact benign_push s _ fun _ => rfl
      · intro b; rfl
    | Cancelled =>
      refine benign_trans ?_ (benign_push _ _ ?_)
      · refine benign_trans ?_ (benign_update_ptid_pos _ _ _)
        exact benign_push s _ fun _ => rfl
      · intro b; rfl
  · exact benign_push s _ fun _ => rfl

lemma on_mouse_wheel_benign (env : Env) (s : EState) (delta : MouseScrollDelta) :
    Benign s (on_mouse_wheel env s delta) := by
  cases delta with
  | LineDelta x y =>
    unfold on_mouse_wheel
    dsimp only
    split
    · refine benign_trans ?_ (benign_push _ _ ?_)
      · exact benign_push s _ fun _ => rfl
      · intro b; rfl
    · split
      · refine benign_trans ?_ (benign_push _ _ ?_)
        · exact benign_push s _ fun _ => rfl
        · intro b; rfl
      · refine benign_trans ?_ (benign_push _ _ ?_)
        · exact benign_push s _ fun _ => rfl
        · intro b; rfl
  | PixelDelta x y =>
    unfold on_mouse_wheel
    dsimp only
    split
    · refine benign_trans ?_ (benign_push _ _ ?_)
      · exact benign_push s _ fun _ => rfl
      · intro b; rfl
    · split
      · refine benign_trans ?_ (benign_push _ _ ?_)
        · exact benign_push s _ fun _ => rfl
        · intro b; rfl
      · refine benign_trans ?_ (benign_push _ _ ?_)
        · exact benign_push s _ fun _ => rfl
        · intro b; rfl

lemma on_keyboard_input_benign (env : Env) (s : EState) (input : KeyboardInput) :
    Benign s (on_keyboard_input env s input) := by
  unfold on_keyboard_input
  split
  · exact benign_refl s
  · dsimp only
    split
    · refine benign_trans ?_ (benign_push _ _ ?_)
      · split
        · split
          · exact benign_push s _ fun _ => rfl
          · split
            · exact benign_push s _ fun _ => rfl
            · split
              · split
                · split
                  · exact benign_push s _ fun _ => rfl
                  · exact benign_refl s
                · exact benign_refl s
              · exact benign_refl s
        · exact benign_refl s
      · intro b; rfl
    · split
      · split
        · exact benign_push s _ fun _ => rfl
        · split
          · exact benign_push s _ fun _ => rfl
          · split
            · split
              · split
                · exact benign_push s _ fun _ => rfl
                · exact benign_refl s
              · exact benign_refl s
            · exact benign_refl s
      · exact benign_refl s

/-! ## The IME invariant is preserved by every event -/

lemma on_event_ImeInv (env : Env) (s : EState) (e : WindowEvent) (h : ImeInv s) :
    ImeInv (on_event env s e).1 := by
  cases e with
  | ScaleFactorChanged sf => exact benign_ImeInv (benign_of_events_started rfl rfl) h
  | MouseInput st b => exact benign_ImeInv (on_mouse_button_input_benign s st b) h
  | MouseWheel d => exact benign_ImeInv (on_mouse_wheel_benign env s d) h
  | CursorMoved p => exact benign_ImeInv (on_cursor_moved_benign s p) h
  | CursorLeft =>
    exact benign_ImeInv
      (benign_trans (benign_update_pos s none) (benign_push _ _ fun _ => rfl)) h
  | Touch t => exact benign_ImeInv (on_touch_benign env s t) h
  | ReceivedCharacter ch =>
    dsimp only [on_event]
    split
    · exact benign_ImeInv (benign_push s _ fun _ => rfl) h
    · exact h
  | Ime i =>
    cases i with
    | Enabled => exact h
    | Disabled => exact h
    | Commit text =>
      intro ht
      dsimp only [on_event, push] at ht
      simp at ht
    | Preedit text =>
      intro _
      dsimp only [on_event, push]
      by_cases hst : s.input_method_editor_started
      · simp only [hst, Bool.not_true, Bool.false_eq_true, if_false]
        rw [compState_append_of_neutral _ [Event.CompositionUpdate text]
          (by intro e he b; rw [List.mem_singleton.mp he]; rfl)]
        exact h hst
      · simp only [Bool.not_eq_true] at hst
        simp only [hst, Bool.not_false, if_true]
        simp [compState, List.foldl_append, compStep]
  | KeyboardInput input => exact benign_ImeInv (on_keyboard_input_benign env s input) h
  | Focused f =>
    exact benign_ImeInv
      (benign_trans ⟨rfl, [], by simp, by simp⟩ (benign_push _ _ fun _ => rfl)) h
  | HoveredFile p => exact benign_ImeInv ⟨rfl, [], by simp, by simp⟩ h
  | HoveredFileCancelled => exact benign_ImeInv ⟨rfl, [], by simp, by simp⟩ h
  | DroppedFile p => exact benign_ImeInv ⟨rfl, [], by simp, by simp⟩ h
  | ModifiersChanged st => exact benign_ImeInv ⟨rfl, [], by simp, by simp⟩ h
  | CloseRequested => exact benign_ImeInv (benign_push s _ fun _ => rfl) h
  | CursorEntered => exact h
  | Destroyed => exact h
  | Occluded b => exact h
  | Resized w ht => exact h
  | Moved x y => exact h
  | ThemeChanged => exact h
  | TouchpadPressure => exact h
  | AxisMotion => exact h
  | SmartMagnify => exact h
  | TouchpadRotate => exact h
  | TouchpadMagnify d => exact benign_ImeInv (benign_push s _ fun _ => rfl) h

lemma runEvents_ImeInv (env : Env) (evs : List WindowEvent) :
    ∀ s : EState, ImeInv s → ImeInv (runEvents env s evs) := by
  induction evs with
  | nil => exact fun s h => h
  | cons e evs ih => exact fun s h => ih _ (on_event_ImeInv env s e h)

lemma initState_ImeInv : ImeInv initState := fun h => absurd h (by decide)

/-! ## Projection lemmas for the touch surrogate -/

lemma on_cursor_moved_ptid (s : EState) (p : ℚ × ℚ) :
    (on_cursor_moved s p).pointer_touch_id = s.pointer_touch_id := by
  unfold on_cursor_moved
  dsimp only
  split
  · split <;> rfl
  · rfl

lemma on_mouse_button_input_ptid (s : EState) (state : ElementState)
    (button : MouseButton) :
    (on_mouse_button_input s state button).pointer_touch_id = s.pointer_touch_id := by
  unfold on_mouse_button_input
  split
  · rfl
  · split
    · rfl
    · dsimp only
      split
      · split <;> rfl
      · rfl

/-! ## Claim C1 -/

/-- C1, counterexample to the claim as stated: in the spec's scenario
(`previous` has size (800,600); `desired` has size (1024,768) and title
"X") the returned command list contains no title command at all —
`changes_between_builders` deliberately never compares or emits titles. -/
theorem reconciler_scenario_no_title_command :
    ViewportCommand.Title "X" ∉ (changes_between_builders vb_desired vb_prev).1 := by
  decide

/-- C1, amended: in the spec's scenario the returned command list is
exactly one `InnerSize` command to (1024,768) — no title command is
emitted, since the reconciler never emits title commands — and the
recreate flag is `false`. -/
theorem reconciler_scenario_resize_only :
    (changes_between_builders vb_desired vb_prev).1
      = [ViewportCommand.InnerSize 1024 768] ∧
    (changes_between_builders vb_desired vb_prev).2.1 = false := by
  constructor <;> decide

/-! ## Claim C2 -/

/-- C2, demonstrating the code bug: with `desired = {visible: Some(true)}`
and `previous` initially empty, the second call to
`changes_between_builders` (against the `last` produced by the first
call) again returns a `Visible` command instead of the empty list,
because the source compares `new.visible` against `last.active`. -/
theorem reconciler_not_idempotent_visible :
    (changes_between_builders vb_visible
        (changes_between_builders vb_visible ({} : ViewportBuilder)).2.2).1
      = [ViewportCommand.Visible true] ∧
    (changes_between_builders vb_visible
        (changes_between_builders vb_visible ({} : ViewportBuilder)).2.2).1 ≠ [] := by
  constructor <;> decide

/-! ## Claim C4 -/

/-- C4, demonstrating the code bug: with `desired.visible = Some(true)`
equal to `previous.visible = Some(true)` (and `previous.active` unset),
`changes_between_builders` emits a `Visible` command for an unchanged
field, because the source compares `new.visible` against `last.active`. -/
theorem reconciler_emits_for_unchanged_visible :
    vb_visible.visible = vb_visible_last.visible ∧
    (changes_between_builders vb_visible vb_visible_last).1
      = [ViewportCommand.Visible true] := by
  constructor <;> decide

/-! ## Claim C5 -/

/-- C5: for every creation-only field (`active`, `close_button`,
`minimize_button`, `maximize_button`, `title_hidden`,
`titlebar_transparent`, `fullsize_content_view`) that is specified in
the desired descriptor and differs from the previous descriptor,
`changes_between_builders` returns the recreate flag `true` and the
previous descriptor updated to the new value, and the command list
contains no command for these fields (in particular no `EnableButtons`
command is ever emitted). -/
theorem creation_only_fields_recreate (nw last : ViewportBuilder) :
    (∀ v, nw.active = some v → last.active ≠ some v →
      (changes_between_builders nw last).2.1 = true ∧
      (changes_between_builders nw last).2.2.active = some v) ∧
    (∀ v, nw.close_button = some v → last.close_button ≠ some v →
      (changes_between_builders nw last).2.1 = true ∧
      (changes_between_builders nw last).2.2.close_button = some v) ∧
    (∀ v, nw.minimize_button = some v → last.minimize_button ≠ some v →
      (changes_between_builders nw last).2.1 = true ∧
      (changes_between_builders nw last).2.2.minimize_button = some v) ∧
    (∀ v, nw.maximize_button = some v → last.maximize_button ≠ some v →
      (changes_between_builders nw last).2.1 = true ∧
      (changes_between_builders nw last).2.2.maximize_button = some v) ∧
    (∀ v, nw.title_hidden = some v → last.title_hidden ≠ some v →
      (changes_between_builders nw last).2.1 = true ∧
      (changes_between_builders nw last).2.2.title_hidden = some v) ∧
    (∀ v, nw.titlebar_transparent = some v → last.titlebar_transparent ≠ some v →
      (changes_between_builders nw last).2.1 = true ∧
      (changes_between_builders nw last).2.2.titlebar_transparent = some v) ∧
    (∀ v, nw.fullsize_content_view = some v → last.fullsize_content_view ≠ some v →
      (changes_between_builders nw last).2.1 = true ∧
      (changes_between_builders nw last).2.2.fullsize_content_view = some v) ∧
    (∀ c ∈ (changes_between_builders nw last).1, c.isEnableButtons = false) := by
  have hcf := commandsPhase_creation nw last
  simp only [creationFields, Prod.mk.injEq] at hcf
  obtain ⟨ha, hc, hmi, hma, hth, htt, hfc⟩ := hcf
  refine ⟨?_, ?_, ?_, ?_, ?_, ?_, ?_, ?_⟩
  · intro v h1 h2
    exact recreatePhase_active nw (commandsPhase nw last).2 v h1 (by rw [ha]; exact h2)
  · intro v h1 h2
    exact recreatePhase_close_button nw (commandsPhase nw last).2 v h1 (by rw [hc]; exact h2)
  · intro v h1 h2
    exact recreatePhase_minimize_button nw (commandsPhase nw last).2 v h1
      (by rw [hmi]; exact h2)
  · intro v h1 h2
    exact recreatePhase_maximize_button nw (commandsPhase nw last).2 v h1
      (by rw [hma]; exact h2)
  · intro v h1 h2
    exact recreatePhase_title_hidden nw (commandsPhase nw last).2 v h1
      (by rw [hth]; exact h2)
  · intro v h1 h2
    exact recreatePhase_titlebar_transparent nw (commandsPhase nw last).2 v h1
      (by rw [htt]; exact h2)
  · intro v h1 h2
    exact recreatePhase_fullsize_content_view nw (commandsPhase nw last).2 v h1
      (by rw [hfc]; exact h2)
  · exact commandsPhase_kinds nw last

/-- C5 witness: applying the theorem at a concrete pair of descriptors
(`vb_creation` sets every creation-only field, the previous descriptor
is empty) and discharging its hypotheses there. -/
theorem creation_only_fields_recreate_witness :
    (changes_between_builders vb_creation ({} : ViewportBuilder)).2.1 = true ∧
    (changes_between_builders vb_creation ({} : ViewportBuilder)).2.2.active = some true :=
  (creation_only_fields_recreate vb_creation ({} : ViewportBuilder)).1 true rfl (by decide)

/-! ## Claim C3 -/

/-- C3, counterexample to the claim as stated: feeding a single
`Ime::Commit` to the translator from the initial state appends a
`CompositionEnd` although no `CompositionStart` was ever appended —
the Commit arm pushes `CompositionEnd` unconditionally. -/
theorem ime_composition_end_without_start :
    (runEvents env0 initState [WindowEvent.Ime (Ime.Commit "a")]).events
      = [Event.CompositionEnd "a"] ∧
    Event.CompositionStart ∉
      (runEvents env0 initState [WindowEvent.Ime (Ime.Commit "a")]).events := by
  constructor <;> decide

/-- C3, amended: for every native event sequence from the initial state,
whenever the composition-in-progress flag is set (a preedit arrived
since the last commit), the trace has an open `CompositionStart`
(a `CompositionStart` appended and no `CompositionEnd` appended since),
and a `Commit` processed in such a state appends its `CompositionEnd`
after that open `CompositionStart`; a commit arriving with no
composition in progress still appends a `CompositionEnd` with no
preceding `CompositionStart`. -/
theorem ime_composition_end_bracketing (env : Env) (evs : List WindowEvent) (t : String)
    (h : (runEvents env initState evs).input_method_editor_started = true) :
    compState (runEvents env initState evs).events = true ∧
    (on_event env (runEvents env initState evs) (WindowEvent.Ime (Ime.Commit t))).1.events
      = (runEvents env initState evs).events ++ [Event.CompositionEnd t] :=
  ⟨runEvents_ImeInv env evs initState initState_ImeInv h, rfl⟩

/-- C3 witness: after a single `Preedit` the flag is set, the trace has
an open `CompositionStart`, and a following `Commit` appends its
`CompositionEnd` at the end of that trace. -/
theorem ime_composition_end_bracketing_witness :
    compState (runEvents env0 initState [WindowEvent.Ime (Ime.Preedit "x")]).events = true ∧
    (on_event env0 (runEvents env0 initState [WindowEvent.Ime (Ime.Preedit "x")])
        (WindowEvent.Ime (Ime.Commit "y"))).1.events
      = (runEvents env0 initState [WindowEvent.Ime (Ime.Preedit "x")]).events
        ++ [Event.CompositionEnd "y"] :=
  ime_composition_end_bracketing env0 [WindowEvent.Ime (Ime.Preedit "x")] "y" (by decide)

/-! ## Claim C7 -/

/-- C7: a native mouse-wheel event with vertical delta 120 (and zero
horizontal delta, in physical pixels at scale factor 1) processed while
the zoom modifier (ctrl or command) is held appends the raw
`MouseWheel` record plus exactly one `Zoom` event with factor
`exp(120/200)`, and no `Scroll` event. -/
theorem mouse_wheel_zoom_event (env : Env) (s : EState)
    (hz : s.modifiers.ctrl = true ∨ s.modifiers.command = true)
    (hp : s.current_pixels_per_point = 1) :
    (on_mouse_wheel env s (MouseScrollDelta.PixelDelta 0 120)).events
      = s.events ++ [Event.MouseWheel MouseWheelUnit.Point (0, 120) s.modifiers,
          Event.Zoom (env.fexp (120 / 200))] ∧
    ([Event.MouseWheel MouseWheelUnit.Point (0, 120) s.modifiers,
        Event.Zoom (env.fexp (120 / 200))].countP Event.isZoom = 1) ∧
    (∀ e ∈ [Event.MouseWheel MouseWheelUnit.Point (0, 120) s.modifiers,
        Event.Zoom (env.fexp (120 / 200))], Event.isScroll e = false) := by
  have hcond : (s.modifiers.ctrl || s.modifiers.command) = true := by
    rcases hz with h | h <;> simp [h]
  refine ⟨?_, ?_, ?_⟩
  · unfold on_mouse_wheel
    dsimp only
    simp only [push]
    rw [hp, hcond]
    norm_num [List.append_assoc]
  · simp [List.countP_cons, Event.isZoom]
  · intro e he
    simp only [List.mem_cons, List.mem_singleton, List.not_mem_nil, or_false] at he
    rcases he with rfl | rfl <;> rfl

/-- C7 witness: the theorem applied at the concrete state `state_ctrl`
(ctrl held, scale factor 1). -/
theorem mouse_wheel_zoom_event_witness :
    (on_mouse_wheel env0 state_ctrl (MouseScrollDelta.PixelDelta 0 120)).events
      = state_ctrl.events
        ++ [Event.MouseWheel MouseWheelUnit.Point (0, 120) state_ctrl.modifiers,
          Event.Zoom (env0.fexp (120 / 200))] :=
  (mouse_wheel_zoom_event env0 state_ctrl (Or.inl rfl) rfl).1

/-! ## Claim C9 -/

/-- C9: a native character event whose character is an ASCII control
character or lies in one of the private-use Unicode ranges (i.e. fails
`is_printable_char`, in particular the bell character 7) leaves the
state unchanged — zero `Text` events; a printable character outside the
macOS command-modifier suppression appends exactly one `Text` event
containing that character. -/
theorem received_character_filtering (env : Env) (s : EState) (ch : Nat) :
    (is_printable_char ch = false →
      (on_event env s (WindowEvent.ReceivedCharacter ch)).1 = s) ∧
    (is_printable_char ch = true →
      (env.is_mac && (s.modifiers.ctrl || s.modifiers.mac_cmd)) = false →
      (on_event env s (WindowEvent.ReceivedCharacter ch)).1 = push s (Event.Text ch)) ∧
    is_printable_char 7 = false := by
  refine ⟨?_, ?_, by decide⟩
  · intro hnp
    dsimp only [on_event]
    simp [hnp]
  · intro hp hm
    dsimp only [on_event]
    simp [hp, hm]

/-- C9 witness: the bell character (codepoint 7) is dropped from the
initial state. -/
theorem received_character_filtering_witness :
    (on_event env0 initState (WindowEvent.ReceivedCharacter 7)).1 = initState :=
  (received_character_filtering env0 initState 7).1 (by decide)

/-! ## Claim C10 -/

/-- C10: a native mouse-button event processed while the pointer
position is unknown leaves the translator state completely unchanged
(no event appended, button-emulation state untouched); the same holds
for an extra button with index greater than 2, which has no mapping. -/
theorem mouse_button_without_pointer (env : Env) (s : EState)
    (state : ElementState) (button : MouseButton) :
    (s.pointer_pos_in_points = none →
      (on_event env s (WindowEvent.MouseInput state button)).1 = s) ∧
    (∀ n, 2 < n → button = MouseButton.Other n →
      (on_event env s (WindowEvent.MouseInput state button)).1 = s) := by
  constructor
  · intro hp
    show on_mouse_button_input s state button = s
    unfold on_mouse_button_input
    rw [hp]
  · intro n hn hb
    subst hb
    show on_mouse_button_input s state (MouseButton.Other n) = s
    unfold on_mouse_button_input
    split
    · rfl
    · have ht : translate_mouse_button (MouseButton.Other n) = none := by
        unfold translate_mouse_button
        dsimp only
        rw [if_neg (by omega), if_neg (by omega)]
      rw [ht]

/-- C10 witness: a left press with no pointer position, and an
`Other(5)` press with a known pointer position, both leave the state
unchanged. -/
theorem mouse_button_without_pointer_witness :
    ((on_event env0 initState
        (WindowEvent.MouseInput ElementState.Pressed MouseButton.Left)).1 = initState) ∧
    ((on_event env0 state_pointer
        (WindowEvent.MouseInput ElementState.Pressed (MouseButton.Other 5))).1
      = state_pointer) :=
  ⟨(mouse_button_without_pointer env0 initState ElementState.Pressed MouseButton.Left).1 rfl,
    (mouse_button_without_pointer env0 state_pointer ElementState.Pressed
      (MouseButton.Other 5)).2 5 (by decide) rfl⟩

/-! ## Claim C6 -/

/-- C6: while touch id `i` is held as the pointer surrogate, a touch
event with a different identifier only appends the raw `Touch` event
and changes nothing else (surrogate, pointer position and
button-emulation state included); and the surrogate value can only
stay `some i` or be cleared to `none` by the surrogate touch itself
reaching the `Ended` or `Cancelled` phase. -/
theorem touch_surrogate_exclusive (env : Env) (s : EState) (t : Touch) (i : Nat)
    (h : s.pointer_touch_id = some i) :
    (t.id ≠ i →
      on_touch env s t = { s with events := s.events ++ [rawTouchEvent env s t] }) ∧
    ((on_touch env s t).pointer_touch_id = some i ∨
      ((on_touch env s t).pointer_touch_id = none ∧ t.id = i ∧
        (t.phase = WinitTouchPhase.Ended ∨ t.phase = WinitTouchPhase.Cancelled))) := by
  constructor
  · intro hne
    unfold on_touch
    dsimp only [push]
    rw [if_neg]
    rw [h]
    rintro (hc | hc)
    · exact Option.noConfusion hc
    · exact hne (Option.some.inj hc).symm
  · unfold on_touch
    dsimp only [push]
    by_cases hti : t.id = i
    · rw [h, hti]
      rw [if_pos (Or.inr rfl)]
      cases t.phase with
      | Started =>
        left
        rw [on_mouse_button_input_ptid, on_cursor_moved_ptid]
      | Moved =>
        left
        rw [on_cursor_moved_ptid]
      | Ended =>
        refine Or.inr ⟨?_, rfl, Or.inl rfl⟩
        simp [on_mouse_button_input_ptid]
      | Cancelled =>
        exact Or.inr ⟨rfl, rfl, Or.inr rfl⟩
    · rw [h]
      rw [if_neg]
      · left
        rfl
      · rintro (hc | hc)
        · exact Option.noConfusion hc
        · exact hti (Option.some.inj hc).symm

/-- C6 witness: with touch id 5 held as surrogate, a `Started` touch
with id 7 only appends its raw `Touch` event. -/
theorem touch_surrogate_exclusive_witness :
    on_touch env0 state_touch5 touch7
      = { state_touch5 with
          events := state_touch5.events ++ [rawTouchEvent env0 state_touch5 touch7] } :=
  (touch_surrogate_exclusive env0 state_touch5 touch7 5 rfl).1 (by decide)

/-! ## Claim C8 -/

/-- C8, counterexample to the claim as stated: when the pointer position
is unknown but the requested icon equals the recorded one, the early
return fires first and the recorded icon is NOT reset to `None`. -/
theorem cursor_icon_not_reset_when_unchanged :
    state_icon_no_pointer.pointer_pos_in_points = none ∧
    (set_cursor_icon state_icon_no_pointer CursorIcon.Default).1.current_cursor_icon
      = some CursorIcon.Default := by
  constructor <;> decide

/-- C8, amended: for an icon different from the recorded one, if the
pointer position is known, the first `set_cursor_icon` call makes
native cursor calls and records the icon, and a second call with the
same icon makes no native call and leaves the state unchanged; if the
pointer position is unknown (and the requested icon differs from the
recorded one) the recorded icon is reset to `none` with no native call,
so the icon is reapplied on re-entry. -/
theorem cursor_icon_idempotent (s : EState) (icon : CursorIcon)
    (hne : s.current_cursor_icon ≠ some icon) :
    (s.pointer_pos_in_points.isSome = true →
      (set_cursor_icon s icon).2 ≠ [] ∧
      (set_cursor_icon s icon).1.current_cursor_icon = some icon ∧
      set_cursor_icon (set_cursor_icon s icon).1 icon = ((set_cursor_icon s icon).1, [])) ∧
    (s.pointer_pos_in_points = none →
      set_cursor_icon s icon = ({ s with current_cursor_icon := none }, [])) := by
  have hsecond : ∀ s' : EState, s'.current_cursor_icon = some icon →
      set_cursor_icon s' icon = (s', []) := by
    intro s' hs'
    unfold set_cursor_icon
    rw [if_pos hs']
  constructor
  · intro hp
    rcases htc : translate_cursor icon with _ | w
    · have e1 : set_cursor_icon s icon
          = ({ s with current_cursor_icon := some icon },
            [NativeCall.SetCursorVisible false]) := by
        unfold set_cursor_icon
        rw [if_neg hne]
        dsimp only
        rw [hp, if_pos rfl, htc]
      rw [e1]
      exact ⟨by simp, rfl, hsecond _ rfl⟩
    · have e1 : set_cursor_icon s icon
          = ({ s with current_cursor_icon := some icon },
            [NativeCall.SetCursorVisible true, NativeCall.SetCursorIcon w]) := by
        unfold set_cursor_icon
        rw [if_neg hne]
        dsimp only
        rw [hp, if_pos rfl, htc]
      rw [e1]
      exact ⟨by simp, rfl, hsecond _ rfl⟩
  · intro hp
    unfold set_cursor_icon
    rw [if_neg hne]
    dsimp only
    rw [hp]
    rfl

/-- C8 witness: from a state with a known pointer position and no
recorded icon, applying the `Default` icon twice makes the second call
a no-op. -/
theorem cursor_icon_idempotent_witness :
    set_cursor_icon (set_cursor_icon state_pointer CursorIcon.Default).1 CursorIcon.Default
      = ((set_cursor_icon state_pointer CursorIcon.Default).1, []) :=
  ((cursor_icon_idempotent state_pointer CursorIcon.Default (by decide)).1 (by decide)).2.2

end EguiWinit
